import Mathlib

/-!
Shallow embedding of the core computation pipeline of `server.py`
(Triplicidades birth-chart server) and proofs about it.

Conventions of the embedding:
* Python floats are modelled as `ℚ` (all the arithmetic under scrutiny is
  exact: additions, subtractions, multiplications, divisions and `%`).
* Python `%` on numbers with a positive modulus is `pymod` below
  (`a - b * ⌊a / b⌋`, i.e. the remainder has the sign of the divisor).
* Python `int(x)` (truncation towards zero) is `pyInt`.
* Python `round(x)` (banker's rounding, half to even) is `pyRound`.
* Python dictionaries with fixed string keys become structures; dictionaries
  used as lookup tables become association lists (`List (String × _)`),
  in insertion order, looked up with `List.lookup`.
* Code that can raise to its caller returns `Except Unit _`.
-/

namespace Triplicidades

/-- Python `%` for numeric operands (result has the sign of the divisor;
    we only ever use a positive divisor). -/
def pymod (a b : ℚ) : ℚ := a - b * ⌊a / b⌋

/-- Python `int()` on a float: truncation towards zero. -/
def pyInt (q : ℚ) : ℤ := q.num.tdiv q.den

/-- Python `round()` on a float: round half to even. -/
def pyRound (q : ℚ) : ℤ :=
  let f := ⌊q⌋
  let r := q - f
  if r < 1/2 then f
  else if 1/2 < r then f + 1
  else if 2 ∣ f then f else f + 1

/-! ### The sign table (`get_sign`, `server.py` lines 598-625)

14 named segments of the ecliptic, each a `(name, start_degree, span_degrees)`
triple, exactly as listed in the source. -/

def signs : List (String × ℚ × ℚ) :=
  [("ARIES", 354, 36),
   ("TAURO", 30, 30),
   ("GÉMINIS", 60, 30),
   ("CÁNCER", 90, 30),
   ("LEO", 120, 30),
   ("VIRGO", 150, 36),
   ("LIBRA", 186, 24),
   ("ESCORPIO", 210, 30),
   ("OFIUCO", 240, 12),
   ("SAGITARIO", 252, 18),
   ("CAPRICORNIO", 270, 36),
   ("ACUARIO", 306, 18),
   ("PEGASO", 324, 6),
   ("PISCIS", 330, 24)]

/-- The `for`-loop of `get_sign`: return the first segment matching either
    `start <= longitude < end` or, for a segment with `start > 330`,
    the wraparound test `longitude >= start or longitude < end`, where
    `end = (start + length) % 360`. `none` means the loop fell through. -/
def get_sign_loop (L : ℚ) : List (String × ℚ × ℚ) → Option String
  | [] => none
  | (name, start, len) :: rest =>
    if start ≤ L ∧ L < pymod (start + len) 360 then some name
    else if 330 < start ∧ (start ≤ L ∨ L < pymod (start + len) 360) then some name
    else get_sign_loop L rest

/-- Function `get_sign`: normalize the longitude modulo 360, scan the table,
    default to `"ARIES"` if the loop falls through. -/
def get_sign (longitude : ℚ) : String :=
  (get_sign_loop (pymod longitude 360) signs).getD "ARIES"

/-- Spec-side formalization of "the segment intervals `[start, start+span)`
    with wraparound for the segment starting above 330°": a normalized
    longitude `x` lies in a segment's interval. -/
def inSegment (x : ℚ) (s : String × ℚ × ℚ) : Bool :=
  if 330 < s.2.1 then
    decide ((s.2.1 ≤ x ∧ x < 360) ∨ (0 ≤ x ∧ x < s.2.1 + s.2.2 - 360))
  else
    decide (s.2.1 ≤ x ∧ x < s.2.1 + s.2.2)

/-! ### Degrees and minutes within a sign
(`calculate_sign_degrees`, `server.py` lines 628-671) -/

/-- Function `calculate_sign_degrees`: find the sign in the table by name
    (`(0, 0)` if absent), compute the offset into the segment with the same
    wraparound special case as `get_sign`, clamp it into `[0, length)`,
    and split into integer degrees and minutes (`int()` truncations). -/
def calculate_sign_degrees (longitude : ℚ) (sign_name : String) : ℤ × ℤ :=
  match signs.find? (fun s => s.1 == sign_name) with
  | none => (0, 0)
  | some s =>
    let L := pymod longitude 360
    let d0 := if 330 < s.2.1 ∧ L < s.2.1 then L + (360 - s.2.1) else L - s.2.1
    let d1 := if d0 < 0 then d0 + 360 else d0
    let d2 := if s.2.2 ≤ d1 then pymod d1 s.2.2 else d1
    (pyInt d2, pyInt ((d2 - (pyInt d2 : ℚ)) * 60))

/-- Spec-side formula for the degrees-in-sign value:
    `(longitude - start) mod 360`, clamped into `[0, span)` via modulo. -/
def degreesInSignSpec (longitude start span : ℚ) : ℚ :=
  pymod (pymod (longitude - start) 360) span

/-! ### DST determination
(`determinar_horario_verano`, `server.py` lines 250-327) -/

/-- Python's `needle in haystack` substring test, on lists of characters. -/
def containsSubL (pat : List Char) : List Char → Bool
  | [] => pat.isEmpty
  | c :: rest => prefixMatch pat (c :: rest) || containsSubL pat rest
where
  prefixMatch : List Char → List Char → Bool
    | [], _ => true
    | _ :: _, [] => false
    | p :: ps, c :: cs => p == c && prefixMatch ps cs

/-- Python's `str.lower()` modelled on the character list of a string. -/
def pyLower (s : String) : List Char := s.toList.map Char.toLower

/-- Function `determinar_horario_verano(fecha, hemisferio, coordenadas)`:
    the date is passed as year/month/day integers, and only the `"pais"`
    field of `coordenadas` is consumed, so it is passed directly. -/
def determinar_horario_verano (anio mes dia : ℤ) (hemisferio pais : String) :
    Bool :=
  if containsSubL "spain".toList (pyLower pais)
      || containsSubL "españa".toList (pyLower pais) then
    if anio < 1974 then false
    else if 1974 ≤ anio ∧ anio ≤ 1975 then
      decide ((4 < mes ∧ mes < 10) ∨ (mes = 4 ∧ 13 ≤ dia) ∨ (mes = 10 ∧ dia ≤ 6))
    else if 1976 ≤ anio ∧ anio ≤ 1996 then
      decide (3 < mes ∧ mes < 10)
    else
      decide ((3 < mes ∧ mes < 10) ∨ (mes = 3 ∧ 25 ≤ dia) ∨ (mes = 10 ∧ dia ≤ 25))
  else if hemisferio == "norte" then
    if anio < 1970 then false
    else
      decide ((3 < mes ∧ mes < 10) ∨ (mes = 3 ∧ 25 ≤ dia) ∨ (mes = 10 ∧ dia ≤ 25))
  else
    if !(["australia", "new zealand", "nueva zelanda", "chile", "paraguay"].any
          (fun country => containsSubL country.toList (pyLower pais))) then
      false
    else
      decide ((mes < 3 ∨ 10 < mes) ∨ (mes = 3 ∧ dia ≤ 25) ∨ (mes = 10 ∧ 25 ≤ dia))

/-! ### Local time to UTC
(`convertir_a_utc`, `server.py` lines 329-371) -/

/-- A parsed local civil date-time (what `datetime.strptime` returns,
    to minute precision). -/
structure LocalDT where
  year : ℕ
  month : ℕ
  day : ℕ
  hour : ℕ
  minute : ℕ
deriving DecidableEq, Repr

/-- Non-empty all-ASCII-digit character list (`str.isdigit` model). -/
def allDigits (l : List Char) : Bool := !l.isEmpty && l.all (·.isDigit)

/-- Numeric value of a digit string. -/
def digitsToNat (l : List Char) : ℕ := l.foldl (fun n c => 10 * n + (c.toNat - 48)) 0

/-- Split a character list at every occurrence of `sep` (Python `str.split`). -/
def splitOnChar (sep : Char) : List Char → List (List Char)
  | [] => [[]]
  | c :: rest =>
    if c = sep then [] :: splitOnChar sep rest
    else
      match splitOnChar sep rest with
      | [] => [[c]]
      | a :: as => (c :: a) :: as

def isLeapYear (y : ℕ) : Bool := (y % 4 = 0 && y % 100 ≠ 0) || y % 400 = 0

def daysInMonth (y m : ℕ) : ℕ :=
  if m = 2 then (if isLeapYear y then 29 else 28)
  else if m = 4 ∨ m = 6 ∨ m = 9 ∨ m = 11 then 30
  else 31

/-- Models `datetime.strptime(f"{fecha} {hora}", "%Y-%m-%d %H:%M")`:
    four-digit year, one/two-digit month, day, hour and minute, with full
    range validation (month 1-12, day within the month, hour < 24,
    minute < 60, year ≥ 1). `none` models the raised `ValueError`. -/
def parseFechaHora (fecha hora : String) : Option LocalDT :=
  match splitOnChar '-' fecha.toList, splitOnChar ':' hora.toList with
  | [ys, ms, ds], [hs, mins] =>
    if allDigits ys && ys.length == 4
        && allDigits ms && decide (ms.length ≤ 2)
        && allDigits ds && decide (ds.length ≤ 2)
        && allDigits hs && decide (hs.length ≤ 2)
        && allDigits mins && decide (mins.length ≤ 2) then
      let y := digitsToNat ys
      let mo := digitsToNat ms
      let d := digitsToNat ds
      let h := digitsToNat hs
      let mi := digitsToNat mins
      if 1 ≤ y ∧ 1 ≤ mo ∧ mo ≤ 12 ∧ 1 ≤ d ∧ d ≤ daysInMonth y mo
          ∧ h ≤ 23 ∧ mi ≤ 59 then
        some ⟨y, mo, d, h, mi⟩
      else none
    else none
  | _, _ => none

/-- Days from 1970-01-01 of a civil date (standard civil-calendar count). -/
def daysFromCivil (y m d : ℤ) : ℤ :=
  let y2 := if m ≤ 2 then y - 1 else y
  let era := Int.fdiv y2 400
  let yoe := y2 - era * 400
  let doy := (153 * (if m ≤ 2 then m + 9 else m - 3) + 2) / 5 + d - 1
  let doe := yoe * 365 + yoe / 4 - yoe / 100 + doy
  era * 146097 + doe - 719468

/-- Absolute minute count of a civil date-time (epoch 1970-01-01 00:00). -/
def toMinutes (dt : LocalDT) : ℤ :=
  daysFromCivil dt.year dt.month dt.day * 1440 + dt.hour * 60 + dt.minute

/-- The fields of the `timezone_info` dictionary that `convertir_a_utc`
    reads: `offset` (hours, absent key modelled as `none`) and the optional
    `lon` key set only by the longitude-estimate fallback producer. -/
structure TimezoneInfo where
  offset : Option ℚ
  lon : Option ℚ

/-- Python `datetime.timezone(timedelta(hours=h))` accepts only offsets strictly
    between -24 and 24 hours. -/
def tzOffsetOk (h : ℚ) : Prop := -24 < h ∧ h < 24

instance (h : ℚ) : Decidable (tzOffsetOk h) := by
  unfold tzOffsetOk; infer_instance

/-- The `except`-branch of `convertir_a_utc` after the re-parse succeeded:
    longitude-estimated offset if a `"lon"` key is present, otherwise
    treat the local time as already being UTC. -/
def convertir_a_utc_fallback (dt : LocalDT) (tz : TimezoneInfo) :
    Except Unit ℚ :=
  match tz.lon with
  | some lon =>
    if tzOffsetOk (pyRound (lon / 15) : ℤ) then
      Except.ok ((toMinutes dt : ℚ) - (pyRound (lon / 15) : ℤ) * 60)
    else Except.error ()
  | none => Except.ok ((toMinutes dt : ℚ))

/-- Function `convertir_a_utc(fecha, hora, timezone_info)`. The result is the UTC
    instant in minutes (`ℚ` because the offset may be fractional);
    `Except.error` models an exception escaping to the caller.
    The `try` body parses, reads `timezone_info["offset"]`, attaches
    `timezone(timedelta(hours=offset))` and converts (local minus offset).
    The `except` handler begins by re-running the very same
    `datetime.strptime` call, so when the parse itself failed the handler
    raises again and the error propagates. -/
def convertir_a_utc (fecha hora : String) (tz : TimezoneInfo) : Except Unit ℚ :=
  match parseFechaHora fecha hora with
  | none => Except.error ()
  | some dt =>
    match tz.offset with
    | some off =>
      if tzOffsetOk off then Except.ok ((toMinutes dt : ℚ) - off * 60)
      else convertir_a_utc_fallback dt tz
    | none => convertir_a_utc_fallback dt tz

/-! ### Aspects
(`calculate_positions_aspects`, `server.py` lines 673-728) -/

/-- One entry of the `positions` list (the fields the scorers read). -/
structure Position where
  name : String
  longitude : ℚ
  sign : String
deriving DecidableEq, Repr

/-- An aspect record `(planet1, aspect_type, planet2, angle)`; the source
    formats the same four values into a string. -/
abbrev Aspect : Type := String × String × String × ℚ

def traditional_planets : List String :=
  ["SOL", "LUNA", "MERCURIO", "VENUS", "MARTE", "JÚPITER", "SATURNO"]

/-- Function `calculate_angle`: `|a - b| % 360`, folded onto `[0, 180]`. -/
def calculate_angle (pos1 pos2 : ℚ) : ℚ :=
  if 180 < pymod |pos1 - pos2| 360 then 360 - pymod |pos1 - pos2| 360
  else pymod |pos1 - pos2| 360

/-- Function `determine_aspect_type` with `orb = 2`, exactly the source's chain. -/
def determine_aspect_type (angle : ℚ) : Option String :=
  if |angle| ≤ 2 ∨ |angle - 60| ≤ 2 ∨ |angle - 120| ≤ 2 ∨ |angle - 180| ≤ 2 then
    some "Armónico Relevante"
  else if |angle - 30| ≤ 2 ∨ |angle - 90| ≤ 2 ∨ |angle - 150| ≤ 2 then
    some "Inarmónico Relevante"
  else if ([12, 24, 36, 48, 72, 84, 96, 108, 132, 144, 156, 168] : List ℚ).any
      (fun a => decide (|angle - a| ≤ 2)) then
    some "Armónico"
  else if ([6, 18, 42, 54, 66, 78, 102, 114, 126, 138, 162, 174] : List ℚ).any
      (fun a => decide (|angle - a| ≤ 2)) then
    some "Inarmónico"
  else none

/-- Inner loop over `positions[i+1:]`: aspects of `pos1` with each later
    traditional planet. -/
def aspectsInner (pos1 : Position) : List Position → List Aspect
  | [] => []
  | pos2 :: rest =>
    if pos2.name ∈ traditional_planets then
      match determine_aspect_type (calculate_angle pos1.longitude pos2.longitude) with
      | some t =>
        (pos1.name, t, pos2.name, calculate_angle pos1.longitude pos2.longitude)
          :: aspectsInner pos1 rest
      | none => aspectsInner pos1 rest
    else aspectsInner pos1 rest

/-- The per-`pos1` aspect with the Ascendant, when an `"ASC"` entry exists. -/
def aspectsASC (ascPos : Option Position) (pos1 : Position) : List Aspect :=
  match ascPos with
  | some asc =>
    match determine_aspect_type (calculate_angle pos1.longitude asc.longitude) with
    | some t => [(pos1.name, t, "ASC", calculate_angle pos1.longitude asc.longitude)]
    | none => []
  | none => []

/-- Outer loop of `calculate_positions_aspects`. -/
def aspectsOuter (ascPos : Option Position) : List Position → List Aspect
  | [] => []
  | pos1 :: rest =>
    if pos1.name ∈ traditional_planets then
      aspectsInner pos1 rest ++ aspectsASC ascPos pos1 ++ aspectsOuter ascPos rest
    else aspectsOuter ascPos rest

def calculate_positions_aspects (positions : List Position) : List Aspect :=
  aspectsOuter (positions.find? (fun p => p.name == "ASC")) positions

attribute [irreducible] determine_aspect_type calculate_angle

/-! ### Essential dignity by sign
(`calculate_dignity`, `server.py` lines 748-807) -/

/-- One planet's fixed dignity table: lists of sign names. -/
structure DignityEntry where
  domicilio : List String
  exaltacion : List String
  caida : List String
  exilio : List String
deriving DecidableEq, Repr

/-- The `dignities` dictionary of `calculate_dignity`, in insertion order. -/
def dignities : List (String × DignityEntry) :=
  [("SOL", ⟨["ESCORPIO", "GÉMINIS", "PEGASO"],
            ["LEO", "ARIES", "CAPRICORNIO", "VIRGO"],
            ["CÁNCER", "PISCIS", "LIBRA", "ACUARIO", "OFIUCO"],
            ["TAURO", "SAGITARIO"]⟩),
   ("LUNA", ⟨["TAURO", "SAGITARIO"],
             ["CÁNCER", "PISCIS", "LIBRA", "ACUARIO", "OFIUCO"],
             ["LEO", "ARIES", "CAPRICORNIO", "VIRGO"],
             ["ESCORPIO", "GÉMINIS", "PEGASO"]⟩),
   ("MERCURIO", ⟨["LEO", "ARIES", "ESCORPIO", "PEGASO"],
                 ["GÉMINIS", "CAPRICORNIO", "VIRGO"],
                 ["TAURO", "LIBRA", "ACUARIO", "OFIUCO"],
                 ["CÁNCER", "PISCIS", "SAGITARIO"]⟩),
   ("VENUS", ⟨["CÁNCER", "PISCIS", "SAGITARIO"],
              ["TAURO", "LIBRA", "ACUARIO", "OFIUCO"],
              ["GÉMINIS", "CAPRICORNIO", "VIRGO"],
              ["LEO", "ARIES", "ESCORPIO", "PEGASO"]⟩),
   ("MARTE", ⟨["GÉMINIS", "CAPRICORNIO", "VIRGO"],
              ["LEO", "ARIES", "ESCORPIO", "PEGASO"],
              ["CÁNCER", "PISCIS", "SAGITARIO"],
              ["TAURO", "LIBRA", "ACUARIO", "OFIUCO"]⟩),
   ("JÚPITER", ⟨["TAURO", "LIBRA", "ACUARIO", "OFIUCO"],
                ["CÁNCER", "PISCIS", "SAGITARIO"],
                ["LEO", "ARIES", "ESCORPIO", "PEGASO"],
                ["GÉMINIS", "CAPRICORNIO", "VIRGO"]⟩),
   ("SATURNO", ⟨["LEO", "ARIES", "LIBRA", "ACUARIO"],
                ["OFIUCO", "GÉMINIS", "SAGITARIO"],
                ["TAURO", "ESCORPIO", "PEGASO"],
                ["CÁNCER", "PISCIS", "CAPRICORNIO", "VIRGO"]⟩)]

/-- Function `calculate_dignity`: start from 0 points and add, in source order,
    +6 for exaltation, +3 for domicile, +0 for fall, +3 for exile,
    testing the sign of the longitude against each list. Unknown planet
    names score 0. -/
def calculate_dignity (planet_name : String) (longitude : ℚ) : ℤ :=
  match dignities.lookup planet_name with
  | none => 0
  | some dg =>
    (if get_sign longitude ∈ dg.exaltacion then 6 else 0)
    + (if get_sign longitude ∈ dg.domicilio then 3 else 0)
    + (if get_sign longitude ∈ dg.caida then 0 else 0)
    + (if get_sign longitude ∈ dg.exilio then 3 else 0)

/-- Spec-side scoring formula: exaltation +6, domicile +3, exile +3,
    fall +0, contributions summed, for a given sign name. -/
def dignityScoreSpec (dg : DignityEntry) (sign : String) : ℤ :=
  (if sign ∈ dg.exaltacion then 6 else 0)
  + (if sign ∈ dg.domicilio then 3 else 0)
  + (if sign ∈ dg.exilio then 3 else 0)
  + (if sign ∈ dg.caida then 0 else 0)

/-! ### Angularity, house number and aspect points
(`is_angular`, `get_house_number`, `calculate_planet_aspects`,
`server.py` lines 809-844) -/

/-- Function `is_angular`: 6 points when the normalized longitude is within 1° of
    one of the 14 segment start degrees, else 0. -/
def is_angular (longitude : ℚ) : ℤ :=
  if (([354, 30, 60, 90, 120, 150, 186, 210, 240, 252, 270, 306, 324, 330] :
        List ℚ).any (fun d => decide (|pymod longitude 360 - d| ≤ 1))) then 6
  else 0

/-- Function `get_house_number`: equal 30° houses counted from the Ascendant. -/
def get_house_number (longitude asc_longitude : ℚ) : ℤ :=
  if 12 < 1 + pyInt (pymod (longitude - asc_longitude) 360 / 30) then
    1 + pyInt (pymod (longitude - asc_longitude) 360 / 30) - 12
  else 1 + pyInt (pymod (longitude - asc_longitude) 360 / 30)

/-- Function `calculate_planet_aspects`: sum the points of the already-formatted
    aspects mentioning the planet (±6 for relevant, ±1 otherwise).
    On the structured records, the substring tests of the source become
    name and category equalities (no planet name is a substring of
    another, and only `"Armónico Relevante"` contains `"Armónico Relevante"`,
    etc., among the four category strings). -/
def calculate_planet_aspects (planet_name : String) (aspects_list : List Aspect) :
    ℤ :=
  (aspects_list.map (fun a =>
    if planet_name == a.1 || planet_name == a.2.2.1 then
      if a.2.1 == "Armónico Relevante" then (6 : ℤ)
      else if a.2.1 == "Inarmónico Relevante" then -6
      else if a.2.1 == "Armónico" then 1
      else if a.2.1 == "Inarmónico" then -1
      else 0
    else 0)).sum

/-! ### The dignity table
(`calculate_dignity_table`, `server.py` lines 846-946) -/

/-- One planet's house-rulership table (`houses_rulers`), insertion order
    exaltacion, domicilio, exilio, caida as in the source dict. -/
structure HouseRulerEntry where
  exaltacion : List ℤ
  domicilio : List ℤ
  exilio : List ℤ
  caida : List ℤ
deriving DecidableEq, Repr

def houses_rulers : List (String × HouseRulerEntry) :=
  [("SOL", ⟨[1, 5, 6, 10], [3, 8], [2, 9], [4, 7, 11, 12]⟩),
   ("LUNA", ⟨[4, 7, 11, 12], [2, 9], [3, 8], [1, 5, 6, 10]⟩),
   ("MERCURIO", ⟨[3, 6, 10], [5, 1, 8], [4, 9, 12], [2, 7, 11]⟩),
   ("VENUS", ⟨[2, 7, 11], [4, 9, 12], [5, 1, 8], [3, 6, 10]⟩),
   ("MARTE", ⟨[5, 1, 8], [3, 6, 10], [2, 7, 11], [4, 9, 12]⟩),
   ("JÚPITER", ⟨[4, 9, 12], [2, 7, 11], [3, 6, 10], [5, 1, 8]⟩),
   ("SATURNO", ⟨[3, 9], [1, 5, 7, 11], [4, 6, 10, 12], [2, 8]⟩)]

/-- The `for dtype, houses in ...items()` loop with `break`: first matching
    dignity category in insertion order, with points
    exaltacion 6, domicilio 3, exilio 3, caida 0; 0 when none matches. -/
def housePoints (e : HouseRulerEntry) (house_num : ℤ) : ℤ :=
  if house_num ∈ e.exaltacion then 6
  else if house_num ∈ e.domicilio then 3
  else if house_num ∈ e.exilio then 3
  else if house_num ∈ e.caida then 0
  else 0

structure DignityRow where
  planeta : String
  signo : String
  casa : ℤ
  puntos_casa : ℤ
  puntos_dignidad : ℤ
  puntos_angular : ℤ
  puntos_aspectos : ℤ
  total_planeta : ℤ
deriving DecidableEq, Repr

structure DignityTable where
  tabla : List DignityRow
  total_general : ℤ
deriving DecidableEq, Repr

/-- The row built for one traditional planet of the `positions` loop. -/
def dignityRowFor (asc_pos : Position) (aspects_list : List Aspect)
    (position : Position) (e : HouseRulerEntry) : DignityRow :=
  { planeta := position.name
    signo := position.sign
    casa := get_house_number position.longitude asc_pos.longitude
    puntos_casa := housePoints e (get_house_number position.longitude asc_pos.longitude)
    puntos_dignidad := calculate_dignity position.name position.longitude
    puntos_angular := is_angular position.longitude
    puntos_aspectos := calculate_planet_aspects position.name aspects_list
    total_planeta :=
      housePoints e (get_house_number position.longitude asc_pos.longitude)
      + calculate_dignity position.name position.longitude
      + is_angular position.longitude
      + calculate_planet_aspects position.name aspects_list }

/-- Function `calculate_dignity_table`: empty table and zero grand total when no
    `"ASC"` position exists; otherwise one row per position whose name is
    a key of `houses_rulers`, and the grand total accumulates the row
    totals. -/
def calculate_dignity_table (positions : List Position)
    (aspects_list : List Aspect) : DignityTable :=
  match positions.find? (fun p => p.name == "ASC") with
  | none => { tabla := [], total_general := 0 }
  | some asc_pos =>
    let rows := positions.filterMap (fun position =>
      match houses_rulers.lookup position.name with
      | none => none
      | some e => some (dignityRowFor asc_pos aspects_list position e))
    { tabla := rows, total_general := (rows.map (fun r => r.total_planeta)).sum }

/-! ### Houses and triplicities
(`server.py` lines 948-1047) -/

def SIGNS_BY_ELEMENT : List (String × List String) :=
  [("AIRE", ["GÉMINIS", "ACUARIO", "OFIUCO", "LIBRA"]),
   ("TIERRA", ["TAURO", "CAPRICORNIO", "VIRGO"]),
   ("AGUA", ["ESCORPIO", "CÁNCER", "PISCIS", "PEGASO"]),
   ("FUEGO", ["ARIES", "LEO", "SAGITARIO"])]

/-- The `ELEMENT_BY_SIGN` dict comprehension, flattened in iteration
    order. -/
def ELEMENT_BY_SIGN : List (String × String) :=
  SIGNS_BY_ELEMENT.flatMap (fun p => p.2.map (fun sign => (sign, p.1)))

/-- Triplicity rulers per element: húmedo, seco, participativo. -/
def TRIPLICITIES : List (String × (String × String × String)) :=
  [("AIRE", ("MERCURIO", "SATURNO", "JÚPITER")),
   ("TIERRA", ("VENUS", "MERCURIO", "LUNA")),
   ("FUEGO", ("SOL", "SATURNO", "MARTE")),
   ("AGUA", ("LUNA", "MARTE", "JÚPITER"))]

def HOUSE_MEANINGS : List String :=
  ["ÓRGANO DE LA INTELIGENCIA",
   "OBJETO DEL SUSTENTO",
   "OBJETO DE LA INTELIGENCIA",
   "MENTE",
   "INTELIGENCIA",
   "OBJETO DE LA MENTE",
   "OBJETO DE LA RELACIÓN",
   "ÓRGANO DE LA MENTE",
   "ÓRGANO DE LA RELACIÓN",
   "UNE EL ÓRGANO DEL SUSTENTO CON EL OBJETO DE LA RELACIÓN",
   "UNE EL OBJETO DEL SUSTENTO CON EL ÓRGANO DE LA RELACIÓN",
   "ÓRGANO DEL SUSTENTO"]

/-- Python `ELEMENT_BY_SIGN.get(sign, "FUEGO")`. -/
def get_element_for_sign (sign : String) : String :=
  (ELEMENT_BY_SIGN.lookup sign).getD "FUEGO"

structure TriplicityRulers where
  regente1 : String
  regente2 : String
  regente3 : String
deriving DecidableEq, Repr

/-- Function `get_triplicity_rulers_for_sign(sign, is_dry_birth)`: the element's
    three rulers; the `is_dry_birth` parameter is accepted but never read.
    (`TRIPLICITIES[element]` cannot miss because `get_element_for_sign`
    always returns one of the four element keys; the `getD` default is the
    total-function rendering of that impossible `KeyError`.) -/
def get_triplicity_rulers_for_sign (sign : String) (is_dry : Bool) :
    TriplicityRulers :=
  match (TRIPLICITIES.lookup (if get_element_for_sign sign == "" then "FUEGO"
                              else get_element_for_sign sign)).getD
      ("", "", "") with
  | (h, s, p) => ⟨h, s, p⟩

structure HouseData where
  house_number : ℤ
  element : String
  sign : String
  cusp_longitude : ℚ
  meaning : String
  triplicity_rulers : TriplicityRulers
deriving DecidableEq, Repr

/-- Function `calculate_houses_with_triplicities`: empty when no Ascendant,
    else twelve equal houses from the Ascendant longitude. -/
def calculate_houses_with_triplicities (positions : List Position)
    (is_dry : Bool) : List HouseData :=
  match positions.find? (fun p => p.name == "ASC") with
  | none => []
  | some asc_pos =>
    (List.range 12).map (fun (i : ℕ) =>
      { house_number := (i : ℤ) + 1
        element := get_element_for_sign (get_sign (pymod (asc_pos.longitude + i * 30) 360))
        sign := get_sign (pymod (asc_pos.longitude + i * 30) 360)
        cusp_longitude := pymod (asc_pos.longitude + i * 30) 360
        meaning := HOUSE_MEANINGS.getD i ""
        triplicity_rulers :=
          get_triplicity_rulers_for_sign
            (get_sign (pymod (asc_pos.longitude + i * 30) 360)) is_dry })

/-- Function `is_dry_birth`: the Sun's house (computed inline with the same
    formula as `get_house_number` without the wrap branch) is in 6..11;
    `false` when Sun or Ascendant is missing. -/
def is_dry_birth (positions : List Position) : Bool :=
  match positions.find? (fun p => p.name == "SOL"),
      positions.find? (fun p => p.name == "ASC") with
  | some sun_pos, some asc_pos =>
    decide (6 ≤ ⌊pymod (sun_pos.longitude - asc_pos.longitude) 360 / 30⌋ + 1
      ∧ ⌊pymod (sun_pos.longitude - asc_pos.longitude) 360 / 30⌋ + 1 ≤ 11)
  | _, _ => false

/-! ### The timezone-table CSV loader and nearest-offset search
(`preload_resources`, `server.py` lines 66-83, and the table search of
`obtener_zona_horaria`, lines 159-180) -/

/-- Python `str.isdigit` on the character list (ASCII digits, non-empty). -/
def pyIsDigitStr (l : List Char) : Bool := !l.isEmpty && l.all (·.isDigit)

/-- Python `s.replace('.', '', 1)`: drop the first `'.'`, keep everything else. -/
def removeFirstDot : List Char → List Char
  | [] => []
  | c :: rest => if c = '.' then rest else c :: removeFirstDot rest

/-- Python `float(s)` for the strings that can reach it here: an optional leading
    minus sign, then digits with at most one decimal point. -/
def parseFloat (s : String) : ℚ :=
  match s.toList with
  | '-' :: rest => -(parseUnsignedFloat rest)
  | l => parseUnsignedFloat l
where
  parseUnsignedFloat (l : List Char) : ℚ :=
    match splitOnChar '.' l with
    | [a] => (digitsToNat a : ℚ)
    | [a, b] => (digitsToNat a : ℚ) + (digitsToNat b : ℚ) / 10 ^ b.length
    | _ => 0

/-- The UTC-offset field parser of `preload_resources`:
    `float(row[4]) if row[4].replace('.', '', 1).isdigit() else 0`. -/
def parse_utc_offset (s : String) : ℚ :=
  if pyIsDigitStr (removeFirstDot s.toList) then parseFloat s else 0

/-- Python `int(s) if s.isdigit() else 0`. -/
def parseIntField (s : String) : ℤ :=
  if pyIsDigitStr s.toList then (digitsToNat s.toList : ℤ) else 0

structure TimezoneTableEntry where
  tzname : String
  country_code : String
  abbreviation : String
  timestamp : ℤ
  utc_offset : ℚ
  dst : ℤ
deriving DecidableEq, Repr

/-- One CSV row of `preload_resources`: kept only when it has at least six
    columns; numeric fields default to 0 when the digit test fails. -/
def loadRow (row : List String) : Option TimezoneTableEntry :=
  if 6 ≤ row.length then
    some { tzname := row.getD 0 ""
           country_code := row.getD 1 ""
           abbreviation := row.getD 2 ""
           timestamp := parseIntField (row.getD 3 "")
           utc_offset := parse_utc_offset (row.getD 4 "")
           dst := parseIntField (row.getD 5 "") }
  else none

/-- The whole-file loader: `time_zone_df` as a list of entries. -/
def preload_time_zone_df (rows : List (List String)) : List TimezoneTableEntry :=
  rows.filterMap loadRow

/-- The nearest-offset search of `obtener_zona_horaria`: scan the table
    keeping the entry whose offset (seconds → hours) is closest to the
    estimate, first entry winning ties (`diff < min_diff`), starting from
    `min_diff = inf` (modelled by the `none` accumulator). -/
def closest_zone_loop (est : ℚ) :
    Option (TimezoneTableEntry × ℚ) → List TimezoneTableEntry →
    Option TimezoneTableEntry
  | acc, [] => acc.map Prod.fst
  | none, z :: rest =>
    closest_zone_loop est (some (z, |z.utc_offset / 3600 - est|)) rest
  | some (best, min_diff), z :: rest =>
    if |z.utc_offset / 3600 - est| < min_diff then
      closest_zone_loop est (some (z, |z.utc_offset / 3600 - est|)) rest
    else closest_zone_loop est (some (best, min_diff)) rest

def closest_zone (est : ℚ) (table : List TimezoneTableEntry) :
    Option TimezoneTableEntry :=
  closest_zone_loop est none table

/-! ## Theorems -/

theorem pymod_nonneg (a : ℚ) {b : ℚ} (hb : 0 < b) : 0 ≤ pymod a b := by
  unfold pymod
  rw [sub_nonneg]
  calc b * ⌊a / b⌋ ≤ b * (a / b) :=
        mul_le_mul_of_nonneg_left (Int.floor_le _) hb.le
    _ = a := by field_simp

theorem pymod_lt (a : ℚ) {b : ℚ} (hb : 0 < b) : pymod a b < b := by
  unfold pymod
  have h := Int.lt_floor_add_one (a / b)
  have : a / b * b < (⌊a / b⌋ + 1) * b := by
    exact mul_lt_mul_of_pos_right h hb
  have ha : a = a / b * b := by field_simp
  nlinarith [ha, this]

theorem pymod_self_of_lt {a b : ℚ} (h0 : 0 ≤ a) (h1 : a < b) : pymod a b = a := by
  have hb : 0 < b := lt_of_le_of_lt h0 h1
  have : ⌊a / b⌋ = 0 := by
    rw [Int.floor_eq_zero_iff]
    constructor
    · exact div_nonneg h0 hb.le
    · rw [div_lt_one hb]; exact h1
  unfold pymod
  rw [this]
  simp

theorem pymod_add_of_neg {a b : ℚ} (h0 : -b ≤ a) (h1 : a < 0) : pymod a b = a + b := by
  have hb : 0 < b := by nlinarith
  have : ⌊a / b⌋ = -1 := by
    have hlow : (-1 : ℚ) ≤ a / b := by
      rw [le_div_iff₀ hb]
      linarith
    have hhigh : a / b < 0 := div_neg_of_neg_of_pos h1 hb
    have h2 : (-1 : ℤ) ≤ ⌊a / b⌋ := by
      rw [Int.le_floor]; exact_mod_cast hlow
    have h3 : ⌊a / b⌋ < 0 := by
      rw [Int.floor_lt]; exact_mod_cast hhigh
    omega
  unfold pymod
  rw [this]
  push_cast
  ring

theorem pymod_add_int_mul (a : ℚ) {b : ℚ} (hb : 0 < b) (k : ℤ) :
    pymod (a + b * k) b = pymod a b := by
  unfold pymod
  have hbne : b ≠ 0 := ne_of_gt hb
  have : (a + b * k) / b = a / b + k := by field_simp; ring
  rw [this, Int.floor_add_int]
  push_cast
  ring

theorem pyInt_eq_floor {q : ℚ} (h : 0 ≤ q) : pyInt q = ⌊q⌋ := by
  unfold pyInt
  rw [Rat.floor_def]
  exact Int.tdiv_eq_ediv (Rat.num_nonneg.mpr h) (Int.ofNat_nonneg _)


theorem inSegment_nowrap_true {x start len : ℚ} {name : String} (h : ¬ 330 < start)
    (h1 : start ≤ x) (h2 : x < start + len) : inSegment x (name, start, len) = true := by
  unfold inSegment
  rw [if_neg h]
  exact decide_eq_true ⟨h1, h2⟩

theorem inSegment_nowrap_false {x start len : ℚ} {name : String} (h : ¬ 330 < start)
    (hd : x < start ∨ start + len ≤ x) : ¬ inSegment x (name, start, len) = true := by
  unfold inSegment
  rw [if_neg h]
  simp only [decide_eq_true_eq]
  rintro ⟨a, b⟩
  rcases hd with hd | hd <;> linarith

theorem inSegment_wrap_true_high {x start len : ℚ} {name : String} (h : 330 < start)
    (h1 : start ≤ x) (h2 : x < 360) : inSegment x (name, start, len) = true := by
  unfold inSegment
  rw [if_pos h]
  exact decide_eq_true (Or.inl ⟨h1, h2⟩)

theorem inSegment_wrap_true_low {x start len : ℚ} {name : String} (h : 330 < start)
    (h1 : 0 ≤ x) (h2 : x < start + len - 360) : inSegment x (name, start, len) = true := by
  unfold inSegment
  rw [if_pos h]
  exact decide_eq_true (Or.inr ⟨h1, h2⟩)

theorem inSegment_wrap_false {x start len : ℚ} {name : String} (h : 330 < start)
    (ha : x < start ∨ 360 ≤ x) (hb : x < 0 ∨ start + len - 360 ≤ x) :
    ¬ inSegment x (name, start, len) = true := by
  unfold inSegment
  rw [if_pos h]
  simp only [decide_eq_true_eq]
  rintro (⟨a, b⟩ | ⟨a, b⟩)
  · rcases ha with c | c <;> linarith
  · rcases hb with c | c <;> linarith


theorem pymod_end0 : pymod ((354:ℚ) + 36) 360 = 30 := by norm_num [pymod]

theorem pymod_end1 : pymod ((30:ℚ) + 30) 360 = 60 := by norm_num [pymod]

theorem pymod_end2 : pymod ((60:ℚ) + 30) 360 = 90 := by norm_num [pymod]

theorem pymod_end3 : pymod ((90:ℚ) + 30) 360 = 120 := by norm_num [pymod]

theorem pymod_end4 : pymod ((120:ℚ) + 30) 360 = 150 := by norm_num [pymod]

theorem pymod_end5 : pymod ((150:ℚ) + 36) 360 = 186 := by norm_num [pymod]

theorem pymod_end6 : pymod ((186:ℚ) + 24) 360 = 210 := by norm_num [pymod]

theorem pymod_end7 : pymod ((210:ℚ) + 30) 360 = 240 := by norm_num [pymod]

theorem pymod_end8 : pymod ((240:ℚ) + 12) 360 = 252 := by norm_num [pymod]

theorem pymod_end9 : pymod ((252:ℚ) + 18) 360 = 270 := by norm_num [pymod]

theorem pymod_end10 : pymod ((270:ℚ) + 36) 360 = 306 := by norm_num [pymod]

theorem pymod_end11 : pymod ((306:ℚ) + 18) 360 = 324 := by norm_num [pymod]

theorem pymod_end12 : pymod ((324:ℚ) + 6) 360 = 330 := by norm_num [pymod]

theorem pymod_end13 : pymod ((330:ℚ) + 24) 360 = 354 := by norm_num [pymod]

theorem c2seg0 (x : ℚ) (h0 : (0:ℚ) ≤ x) (h1 : x < 30) :
    (signs.filter (inSegment x)).map Prod.fst = ["ARIES"] ∧
    get_sign_loop x signs = some "ARIES" := by
  constructor
  · have p0 : inSegment x (("ARIES", 354, 36) : String × ℚ × ℚ) = true := inSegment_wrap_true_low (by norm_num) (by linarith) (by linarith)
    have n1 : ¬ inSegment x (("TAURO", 30, 30) : String × ℚ × ℚ) = true := inSegment_nowrap_false (by norm_num) (Or.inl (by linarith))
    have n2 : ¬ inSegment x (("GÉMINIS", 60, 30) : String × ℚ × ℚ) = true := inSegment_nowrap_false (by norm_num) (Or.inl (by linarith))
    have n3 : ¬ inSegment x (("CÁNCER", 90, 30) : String × ℚ × ℚ) = true := inSegment_nowrap_false (by norm_num) (Or.inl (by linarith))
    have n4 : ¬ inSegment x (("LEO", 120, 30) : String × ℚ × ℚ) = true := inSegment_nowrap_false (by norm_num) (Or.inl (by linarith))
    have n5 : ¬ inSegment x (("VIRGO", 150, 36) : String × ℚ × ℚ) = true := inSegment_nowrap_false (by norm_num) (Or.inl (by linarith))
    have n6 : ¬ inSegment x (("LIBRA", 186, 24) : String × ℚ × ℚ) = true := inSegment_nowrap_false (by norm_num) (Or.inl (by linarith))
    have n7 : ¬ inSegment x (("ESCORPIO", 210, 30) : String × ℚ × ℚ) = true := inSegment_nowrap_false (by norm_num) (Or.inl (by linarith))
    have n8 : ¬ inSegment x (("OFIUCO", 240, 12) : String × ℚ × ℚ) = true := inSegment_nowrap_false (by norm_num) (Or.inl (by linarith))
    have n9 : ¬ inSegment x (("SAGITARIO", 252, 18) : String × ℚ × ℚ) = true := inSegment_nowrap_false (by norm_num) (Or.inl (by linarith))
    have n10 : ¬ inSegment x (("CAPRICORNIO", 270, 36) : String × ℚ × ℚ) = true := inSegment_nowrap_false (by norm_num) (Or.inl (by linarith))
    have n11 : ¬ inSegment x (("ACUARIO", 306, 18) : String × ℚ × ℚ) = true := inSegment_nowrap_false (by norm_num) (Or.inl (by linarith))
    have n12 : ¬ inSegment x (("PEGASO", 324, 6) : String × ℚ × ℚ) = true := inSegment_nowrap_false (by norm_num) (Or.inl (by linarith))
    have n13 : ¬ inSegment x (("PISCIS", 330, 24) : String × ℚ × ℚ) = true := inSegment_nowrap_false (by norm_num) (Or.inl (by linarith))
    simp only [signs]
    rw [List.filter_cons_of_pos p0, List.filter_cons_of_neg n1, List.filter_cons_of_neg n2, List.filter_cons_of_neg n3, List.filter_cons_of_neg n4, List.filter_cons_of_neg n5, List.filter_cons_of_neg n6, List.filter_cons_of_neg n7, List.filter_cons_of_neg n8, List.filter_cons_of_neg n9, List.filter_cons_of_neg n10, List.filter_cons_of_neg n11, List.filter_cons_of_neg n12, List.filter_cons_of_neg n13, List.filter_nil]
    rfl
  · have a0 : ¬((354:ℚ) ≤ x ∧ x < 30) := by rintro ⟨u, v⟩; linarith
    have pm : (330:ℚ) < 354 ∧ ((354:ℚ) ≤ x ∨ x < 30) := ⟨by norm_num, Or.inr (by linarith)⟩
    simp only [signs, get_sign_loop, pymod_end0, pymod_end1, pymod_end2, pymod_end3, pymod_end4, pymod_end5, pymod_end6, pymod_end7, pymod_end8, pymod_end9, pymod_end10, pymod_end11, pymod_end12, pymod_end13]
    rw [if_neg a0, if_pos pm]

theorem c2seg1 (x : ℚ) (h0 : (30:ℚ) ≤ x) (h1 : x < 60) :
    (signs.filter (inSegment x)).map Prod.fst = ["TAURO"] ∧
    get_sign_loop x signs = some "TAURO" := by
  constructor
  · have n0 : ¬ inSegment x (("ARIES", 354, 36) : String × ℚ × ℚ) = true := inSegment_wrap_false (by norm_num) (Or.inl (by linarith)) (Or.inr (by linarith))
    have p1 : inSegment x (("TAURO", 30, 30) : String × ℚ × ℚ) = true := inSegment_nowrap_true (by norm_num) (by linarith) (by linarith)
    have n2 : ¬ inSegment x (("GÉMINIS", 60, 30) : String × ℚ × ℚ) = true := inSegment_nowrap_false (by norm_num) (Or.inl (by linarith))
    have n3 : ¬ inSegment x (("CÁNCER", 90, 30) : String × ℚ × ℚ) = true := inSegment_nowrap_false (by norm_num) (Or.inl (by linarith))
    have n4 : ¬ inSegment x (("LEO", 120, 30) : String × ℚ × ℚ) = true := inSegment_nowrap_false (by norm_num) (Or.inl (by linarith))
    have n5 : ¬ inSegment x (("VIRGO", 150, 36) : String × ℚ × ℚ) = true := inSegment_nowrap_false (by norm_num) (Or.inl (by linarith))
    have n6 : ¬ inSegment x (("LIBRA", 186, 24) : String × ℚ × ℚ) = true := inSegment_nowrap_false (by norm_num) (Or.inl (by linarith))
    have n7 : ¬ inSegment x (("ESCORPIO", 210, 30) : String × ℚ × ℚ) = true := inSegment_nowrap_false (by norm_num) (Or.inl (by linarith))
    have n8 : ¬ inSegment x (("OFIUCO", 240, 12) : String × ℚ × ℚ) = true := inSegment_nowrap_false (by norm_num) (Or.inl (by linarith))
    have n9 : ¬ inSegment x (("SAGITARIO", 252, 18) : String × ℚ × ℚ) = true := inSegment_nowrap_false (by norm_num) (Or.inl (by linarith))
    have n10 : ¬ inSegment x (("CAPRICORNIO", 270, 36) : String × ℚ × ℚ) = true := inSegment_nowrap_false (by norm_num) (Or.inl (by linarith))
    have n11 : ¬ inSegment x (("ACUARIO", 306, 18) : String × ℚ × ℚ) = true := inSegment_nowrap_false (by norm_num) (Or.inl (by linarith))
    have n12 : ¬ inSegment x (("PEGASO", 324, 6) : String × ℚ × ℚ) = true := inSegment_nowrap_false (by norm_num) (Or.inl (by linarith))
    have n13 : ¬ inSegment x (("PISCIS", 330, 24) : String × ℚ × ℚ) = true := inSegment_nowrap_false (by norm_num) (Or.inl (by linarith))
    simp only [signs]
    rw [List.filter_cons_of_neg n0, List.filter_cons_of_pos p1, List.filter_cons_of_neg n2, List.filter_cons_of_neg n3, List.filter_cons_of_neg n4, List.filter_cons_of_neg n5, List.filter_cons_of_neg n6, List.filter_cons_of_neg n7, List.filter_cons_of_neg n8, List.filter_cons_of_neg n9, List.filter_cons_of_neg n10, List.filter_cons_of_neg n11, List.filter_cons_of_neg n12, List.filter_cons_of_neg n13, List.filter_nil]
    rfl
  · have a0 : ¬((354:ℚ) ≤ x ∧ x < 30) := by rintro ⟨u, v⟩; linarith
    have b0 : ¬((330:ℚ) < 354 ∧ ((354:ℚ) ≤ x ∨ x < 30)) := by rintro ⟨-, c⟩; rcases c with c | c <;> linarith
    have pm : (30:ℚ) ≤ x ∧ x < 60 := ⟨by linarith, by linarith⟩
    simp only [signs, get_sign_loop, pymod_end0, pymod_end1, pymod_end2, pymod_end3, pymod_end4, pymod_end5, pymod_end6, pymod_end7, pymod_end8, pymod_end9, pymod_end10, pymod_end11, pymod_end12, pymod_end13]
    rw [if_neg a0, if_neg b0, if_pos pm]

theorem c2seg2 (x : ℚ) (h0 : (60:ℚ) ≤ x) (h1 : x < 90) :
    (signs.filter (inSegment x)).map Prod.fst = ["GÉMINIS"] ∧
    get_sign_loop x signs = some "GÉMINIS" := by
  constructor
  · have n0 : ¬ inSegment x (("ARIES", 354, 36) : String × ℚ × ℚ) = true := inSegment_wrap_false (by norm_num) (Or.inl (by linarith)) (Or.inr (by linarith))
    have n1 : ¬ inSegment x (("TAURO", 30, 30) : String × ℚ × ℚ) = true := inSegment_nowrap_false (by norm_num) (Or.inr (by linarith))
    have p2 : inSegment x (("GÉMINIS", 60, 30) : String × ℚ × ℚ) = true := inSegment_nowrap_true (by norm_num) (by linarith) (by linarith)
    have n3 : ¬ inSegment x (("CÁNCER", 90, 30) : String × ℚ × ℚ) = true := inSegment_nowrap_false (by norm_num) (Or.inl (by linarith))
    have n4 : ¬ inSegment x (("LEO", 120, 30) : String × ℚ × ℚ) = true := inSegment_nowrap_false (by norm_num) (Or.inl (by linarith))
    have n5 : ¬ inSegment x (("VIRGO", 150, 36) : String × ℚ × ℚ) = true := inSegment_nowrap_false (by norm_num) (Or.inl (by linarith))
    have n6 : ¬ inSegment x (("LIBRA", 186, 24) : String × ℚ × ℚ) = true := inSegment_nowrap_false (by norm_num) (Or.inl (by linarith))
    have n7 : ¬ inSegment x (("ESCORPIO", 210, 30) : String × ℚ × ℚ) = true := inSegment_nowrap_false (by norm_num) (Or.inl (by linarith))
    have n8 : ¬ inSegment x (("OFIUCO", 240, 12) : String × ℚ × ℚ) = true := inSegment_nowrap_false (by norm_num) (Or.inl (by linarith))
    have n9 : ¬ inSegment x (("SAGITARIO", 252, 18) : String × ℚ × ℚ) = true := inSegment_nowrap_false (by norm_num) (Or.inl (by linarith))
    have n10 : ¬ inSegment x (("CAPRICORNIO", 270, 36) : String × ℚ × ℚ) = true := inSegment_nowrap_false (by norm_num) (Or.inl (by linarith))
    have n11 : ¬ inSegment x (("ACUARIO", 306, 18) : String × ℚ × ℚ) = true := inSegment_nowrap_false (by norm_num) (Or.inl (by linarith))
    have n12 : ¬ inSegment x (("PEGASO", 324, 6) : String × ℚ × ℚ) = true := inSegment_nowrap_false (by norm_num) (Or.inl (by linarith))
    have n13 : ¬ inSegment x (("PISCIS", 330, 24) : String × ℚ × ℚ) = true := inSegment_nowrap_false (by norm_num) (Or.inl (by linarith))
    simp only [signs]
    rw [List.filter_cons_of_neg n0, List.filter_cons_of_neg n1, List.filter_cons_of_pos p2, List.filter_cons_of_neg n3, List.filter_cons_of_neg n4, List.filter_cons_of_neg n5, List.filter_cons_of_neg n6, List.filter_cons_of_neg n7, List.filter_cons_of_neg n8, List.filter_cons_of_neg n9, List.filter_cons_of_neg n10, List.filter_cons_of_neg n11, List.filter_cons_of_neg n12, List.filter_cons_of_neg n13, List.filter_nil]
    rfl
  · have a0 : ¬((354:ℚ) ≤ x ∧ x < 30) := by rintro ⟨u, v⟩; linarith
    have b0 : ¬((330:ℚ) < 354 ∧ ((354:ℚ) ≤ x ∨ x < 30)) := by rintro ⟨-, c⟩; rcases c with c | c <;> linarith
    have a1 : ¬((30:ℚ) ≤ x ∧ x < 60) := by rintro ⟨u, v⟩; linarith
    have b1 : ¬((330:ℚ) < 30 ∧ ((30:ℚ) ≤ x ∨ x < 60)) := by rintro ⟨u, -⟩; linarith
    have pm : (60:ℚ) ≤ x ∧ x < 90 := ⟨by linarith, by linarith⟩
    simp only [signs, get_sign_loop, pymod_end0, pymod_end1, pymod_end2, pymod_end3, pymod_end4, pymod_end5, pymod_end6, pymod_end7, pymod_end8, pymod_end9, pymod_end10, pymod_end11, pymod_end12, pymod_end13]
    rw [if_neg a0, if_neg b0, if_neg a1, if_neg b1, if_pos pm]

theorem c2seg3 (x : ℚ) (h0 : (90:ℚ) ≤ x) (h1 : x < 120) :
    (signs.filter (inSegment x)).map Prod.fst = ["CÁNCER"] ∧
    get_sign_loop x signs = some "CÁNCER" := by
  constructor
  · have n0 : ¬ inSegment x (("ARIES", 354, 36) : String × ℚ × ℚ) = true := inSegment_wrap_false (by norm_num) (Or.inl (by linarith)) (Or.inr (by linarith))
    have n1 : ¬ inSegment x (("TAURO", 30, 30) : String × ℚ × ℚ) = true := inSegment_nowrap_false (by norm_num) (Or.inr (by linarith))
    have n2 : ¬ inSegment x (("GÉMINIS", 60, 30) : String × ℚ × ℚ) = true := inSegment_nowrap_false (by norm_num) (Or.inr (by linarith))
    have p3 : inSegment x (("CÁNCER", 90, 30) : String × ℚ × ℚ) = true := inSegment_nowrap_true (by norm_num) (by linarith) (by linarith)
    have n4 : ¬ inSegment x (("LEO", 120, 30) : String × ℚ × ℚ) = true := inSegment_nowrap_false (by norm_num) (Or.inl (by linarith))
    have n5 : ¬ inSegment x (("VIRGO", 150, 36) : String × ℚ × ℚ) = true := inSegment_nowrap_false (by norm_num) (Or.inl (by linarith))
    have n6 : ¬ inSegment x (("LIBRA", 186, 24) : String × ℚ × ℚ) = true := inSegment_nowrap_false (by norm_num) (Or.inl (by linarith))
    have n7 : ¬ inSegment x (("ESCORPIO", 210, 30) : String × ℚ × ℚ) = true := inSegment_nowrap_false (by norm_num) (Or.inl (by linarith))
    have n8 : ¬ inSegment x (("OFIUCO", 240, 12) : String × ℚ × ℚ) = true := inSegment_nowrap_false (by norm_num) (Or.inl (by linarith))
    have n9 : ¬ inSegment x (("SAGITARIO", 252, 18) : String × ℚ × ℚ) = true := inSegment_nowrap_false (by norm_num) (Or.inl (by linarith))
    have n10 : ¬ inSegment x (("CAPRICORNIO", 270, 36) : String × ℚ × ℚ) = true := inSegment_nowrap_false (by norm_num) (Or.inl (by linarith))
    have n11 : ¬ inSegment x (("ACUARIO", 306, 18) : String × ℚ × ℚ) = true := inSegment_nowrap_false (by norm_num) (Or.inl (by linarith))
    have n12 : ¬ inSegment x (("PEGASO", 324, 6) : String × ℚ × ℚ) = true := inSegment_nowrap_false (by norm_num) (Or.inl (by linarith))
    have n13 : ¬ inSegment x (("PISCIS", 330, 24) : String × ℚ × ℚ) = true := inSegment_nowrap_false (by norm_num) (Or.inl (by linarith))
    simp only [signs]
    rw [List.filter_cons_of_neg n0, List.filter_cons_of_neg n1, List.filter_cons_of_neg n2, List.filter_cons_of_pos p3, List.filter_cons_of_neg n4, List.filter_cons_of_neg n5, List.filter_cons_of_neg n6, List.filter_cons_of_neg n7, List.filter_cons_of_neg n8, List.filter_cons_of_neg n9, List.filter_cons_of_neg n10, List.filter_cons_of_neg n11, List.filter_cons_of_neg n12, List.filter_cons_of_neg n13, List.filter_nil]
    rfl
  · have a0 : ¬((354:ℚ) ≤ x ∧ x < 30) := by rintro ⟨u, v⟩; linarith
    have b0 : ¬((330:ℚ) < 354 ∧ ((354:ℚ) ≤ x ∨ x < 30)) := by rintro ⟨-, c⟩; rcases c with c | c <;> linarith
    have a1 : ¬((30:ℚ) ≤ x ∧ x < 60) := by rintro ⟨u, v⟩; linarith
    have b1 : ¬((330:ℚ) < 30 ∧ ((30:ℚ) ≤ x ∨ x < 60)) := by rintro ⟨u, -⟩; linarith
    have a2 : ¬((60:ℚ) ≤ x ∧ x < 90) := by rintro ⟨u, v⟩; linarith
    have b2 : ¬((330:ℚ) < 60 ∧ ((60:ℚ) ≤ x ∨ x < 90)) := by rintro ⟨u, -⟩; linarith
    have pm : (90:ℚ) ≤ x ∧ x < 120 := ⟨by linarith, by linarith⟩
    simp only [signs, get_sign_loop, pymod_end0, pymod_end1, pymod_end2, pymod_end3, pymod_end4, pymod_end5, pymod_end6, pymod_end7, pymod_end8, pymod_end9, pymod_end10, pymod_end11, pymod_end12, pymod_end13]
    rw [if_neg a0, if_neg b0, if_neg a1, if_neg b1, if_neg a2, if_neg b2, if_pos pm]

theorem c2seg4 (x : ℚ) (h0 : (120:ℚ) ≤ x) (h1 : x < 150) :
    (signs.filter (inSegment x)).map Prod.fst = ["LEO"] ∧
    get_sign_loop x signs = some "LEO" := by
  constructor
  · have n0 : ¬ inSegment x (("ARIES", 354, 36) : String × ℚ × ℚ) = true := inSegment_wrap_false (by norm_num) (Or.inl (by linarith)) (Or.inr (by linarith))
    have n1 : ¬ inSegment x (("TAURO", 30, 30) : String × ℚ × ℚ) = true := inSegment_nowrap_false (by norm_num) (Or.inr (by linarith))
    have n2 : ¬ inSegment x (("GÉMINIS", 60, 30) : String × ℚ × ℚ) = true := inSegment_nowrap_false (by norm_num) (Or.inr (by linarith))
    have n3 : ¬ inSegment x (("CÁNCER", 90, 30) : String × ℚ × ℚ) = true := inSegment_nowrap_false (by norm_num) (Or.inr (by linarith))
    have p4 : inSegment x (("LEO", 120, 30) : String × ℚ × ℚ) = true := inSegment_nowrap_true (by norm_num) (by linarith) (by linarith)
    have n5 : ¬ inSegment x (("VIRGO", 150, 36) : String × ℚ × ℚ) = true := inSegment_nowrap_false (by norm_num) (Or.inl (by linarith))
    have n6 : ¬ inSegment x (("LIBRA", 186, 24) : String × ℚ × ℚ) = true := inSegment_nowrap_false (by norm_num) (Or.inl (by linarith))
    have n7 : ¬ inSegment x (("ESCORPIO", 210, 30) : String × ℚ × ℚ) = true := inSegment_nowrap_false (by norm_num) (Or.inl (by linarith))
    have n8 : ¬ inSegment x (("OFIUCO", 240, 12) : String × ℚ × ℚ) = true := inSegment_nowrap_false (by norm_num) (Or.inl (by linarith))
    have n9 : ¬ inSegment x (("SAGITARIO", 252, 18) : String × ℚ × ℚ) = true := inSegment_nowrap_false (by norm_num) (Or.inl (by linarith))
    have n10 : ¬ inSegment x (("CAPRICORNIO", 270, 36) : String × ℚ × ℚ) = true := inSegment_nowrap_false (by norm_num) (Or.inl (by linarith))
    have n11 : ¬ inSegment x (("ACUARIO", 306, 18) : String × ℚ × ℚ) = true := inSegment_nowrap_false (by norm_num) (Or.inl (by linarith))
    have n12 : ¬ inSegment x (("PEGASO", 324, 6) : String × ℚ × ℚ) = true := inSegment_nowrap_false (by norm_num) (Or.inl (by linarith))
    have n13 : ¬ inSegment x (("PISCIS", 330, 24) : String × ℚ × ℚ) = true := inSegment_nowrap_false (by norm_num) (Or.inl (by linarith))
    simp only [signs]
    rw [List.filter_cons_of_neg n0, List.filter_cons_of_neg n1, List.filter_cons_of_neg n2, List.filter_cons_of_neg n3, List.filter_cons_of_pos p4, List.filter_cons_of_neg n5, List.filter_cons_of_neg n6, List.filter_cons_of_neg n7, List.filter_cons_of_neg n8, List.filter_cons_of_neg n9, List.filter_cons_of_neg n10, List.filter_cons_of_neg n11, List.filter_cons_of_neg n12, List.filter_cons_of_neg n13, List.filter_nil]
    rfl
  · have a0 : ¬((354:ℚ) ≤ x ∧ x < 30) := by rintro ⟨u, v⟩; linarith
    have b0 : ¬((330:ℚ) < 354 ∧ ((354:ℚ) ≤ x ∨ x < 30)) := by rintro ⟨-, c⟩; rcases c with c | c <;> linarith
    have a1 : ¬((30:ℚ) ≤ x ∧ x < 60) := by rintro ⟨u, v⟩; linarith
    have b1 : ¬((330:ℚ) < 30 ∧ ((30:ℚ) ≤ x ∨ x < 60)) := by rintro ⟨u, -⟩; linarith
    have a2 : ¬((60:ℚ) ≤ x ∧ x < 90) := by rintro ⟨u, v⟩; linarith
    have b2 : ¬((330:ℚ) < 60 ∧ ((60:ℚ) ≤ x ∨ x < 90)) := by rintro ⟨u, -⟩; linarith
    have a3 : ¬((90:ℚ) ≤ x ∧ x < 120) := by rintro ⟨u, v⟩; linarith
    have b3 : ¬((330:ℚ) < 90 ∧ ((90:ℚ) ≤ x ∨ x < 120)) := by rintro ⟨u, -⟩; linarith
    have pm : (120:ℚ) ≤ x ∧ x < 150 := ⟨by linarith, by linarith⟩
    simp only [signs, get_sign_loop, pymod_end0, pymod_end1, pymod_end2, pymod_end3, pymod_end4, pymod_end5, pymod_end6, pymod_end7, pymod_end8, pymod_end9, pymod_end10, pymod_end11, pymod_end12, pymod_end13]
    rw [if_neg a0, if_neg b0, if_neg a1, if_neg b1, if_neg a2, if_neg b2, if_neg a3, if_neg b3, if_pos pm]

theorem c2seg5 (x : ℚ) (h0 : (150:ℚ) ≤ x) (h1 : x < 186) :
    (signs.filter (inSegment x)).map Prod.fst = ["VIRGO"] ∧
    get_sign_loop x signs = some "VIRGO" := by
  constructor
  · have n0 : ¬ inSegment x (("ARIES", 354, 36) : String × ℚ × ℚ) = true := inSegment_wrap_false (by norm_num) (Or.inl (by linarith)) (Or.inr (by linarith))
    have n1 : ¬ inSegment x (("TAURO", 30, 30) : String × ℚ × ℚ) = true := inSegment_nowrap_false (by norm_num) (Or.inr (by linarith))
    have n2 : ¬ inSegment x (("GÉMINIS", 60, 30) : String × ℚ × ℚ) = true := inSegment_nowrap_false (by norm_num) (Or.inr (by linarith))
    have n3 : ¬ inSegment x (("CÁNCER", 90, 30) : String × ℚ × ℚ) = true := inSegment_nowrap_false (by norm_num) (Or.inr (by linarith))
    have n4 : ¬ inSegment x (("LEO", 120, 30) : String × ℚ × ℚ) = true := inSegment_nowrap_false (by norm_num) (Or.inr (by linarith))
    have p5 : inSegment x (("VIRGO", 150, 36) : String × ℚ × ℚ) = true := inSegment_nowrap_true (by norm_num) (by linarith) (by linarith)
    have n6 : ¬ inSegment x (("LIBRA", 186, 24) : String × ℚ × ℚ) = true := inSegment_nowrap_false (by norm_num) (Or.inl (by linarith))
    have n7 : ¬ inSegment x (("ESCORPIO", 210, 30) : String × ℚ × ℚ) = true := inSegment_nowrap_false (by norm_num) (Or.inl (by linarith))
    have n8 : ¬ inSegment x (("OFIUCO", 240, 12) : String × ℚ × ℚ) = true := inSegment_nowrap_false (by norm_num) (Or.inl (by linarith))
    have n9 : ¬ inSegment x (("SAGITARIO", 252, 18) : String × ℚ × ℚ) = true := inSegment_nowrap_false (by norm_num) (Or.inl (by linarith))
    have n10 : ¬ inSegment x (("CAPRICORNIO", 270, 36) : String × ℚ × ℚ) = true := inSegment_nowrap_false (by norm_num) (Or.inl (by linarith))
    have n11 : ¬ inSegment x (("ACUARIO", 306, 18) : String × ℚ × ℚ) = true := inSegment_nowrap_false (by norm_num) (Or.inl (by linarith))
    have n12 : ¬ inSegment x (("PEGASO", 324, 6) : String × ℚ × ℚ) = true := inSegment_nowrap_false (by norm_num) (Or.inl (by linarith))
    have n13 : ¬ inSegment x (("PISCIS", 330, 24) : String × ℚ × ℚ) = true := inSegment_nowrap_false (by norm_num) (Or.inl (by linarith))
    simp only [signs]
    rw [List.filter_cons_of_neg n0, List.filter_cons_of_neg n1, List.filter_cons_of_neg n2, List.filter_cons_of_neg n3, List.filter_cons_of_neg n4, List.filter_cons_of_pos p5, List.filter_cons_of_neg n6, List.filter_cons_of_neg n7, List.filter_cons_of_neg n8, List.filter_cons_of_neg n9, List.filter_cons_of_neg n10, List.filter_cons_of_neg n11, List.filter_cons_of_neg n12, List.filter_cons_of_neg n13, List.filter_nil]
    rfl
  · have a0 : ¬((354:ℚ) ≤ x ∧ x < 30) := by rintro ⟨u, v⟩; linarith
    have b0 : ¬((330:ℚ) < 354 ∧ ((354:ℚ) ≤ x ∨ x < 30)) := by rintro ⟨-, c⟩; rcases c with c | c <;> linarith
    have a1 : ¬((30:ℚ) ≤ x ∧ x < 60) := by rintro ⟨u, v⟩; linarith
    have b1 : ¬((330:ℚ) < 30 ∧ ((30:ℚ) ≤ x ∨ x < 60)) := by rintro ⟨u, -⟩; linarith
    have a2 : ¬((60:ℚ) ≤ x ∧ x < 90) := by rintro ⟨u, v⟩; linarith
    have b2 : ¬((330:ℚ) < 60 ∧ ((60:ℚ) ≤ x ∨ x < 90)) := by rintro ⟨u, -⟩; linarith
    have a3 : ¬((90:ℚ) ≤ x ∧ x < 120) := by rintro ⟨u, v⟩; linarith
    have b3 : ¬((330:ℚ) < 90 ∧ ((90:ℚ) ≤ x ∨ x < 120)) := by rintro ⟨u, -⟩; linarith
    have a4 : ¬((120:ℚ) ≤ x ∧ x < 150) := by rintro ⟨u, v⟩; linarith
    have b4 : ¬((330:ℚ) < 120 ∧ ((120:ℚ) ≤ x ∨ x < 150)) := by rintro ⟨u, -⟩; linarith
    have pm : (150:ℚ) ≤ x ∧ x < 186 := ⟨by linarith, by linarith⟩
    simp only [signs, get_sign_loop, pymod_end0, pymod_end1, pymod_end2, pymod_end3, pymod_end4, pymod_end5, pymod_end6, pymod_end7, pymod_end8, pymod_end9, pymod_end10, pymod_end11, pymod_end12, pymod_end13]
    rw [if_neg a0, if_neg b0, if_neg a1, if_neg b1, if_neg a2, if_neg b2, if_neg a3, if_neg b3, if_neg a4, if_neg b4, if_pos pm]

theorem c2seg6 (x : ℚ) (h0 : (186:ℚ) ≤ x) (h1 : x < 210) :
    (signs.filter (inSegment x)).map Prod.fst = ["LIBRA"] ∧
    get_sign_loop x signs = some "LIBRA" := by
  constructor
  · have n0 : ¬ inSegment x (("ARIES", 354, 36) : String × ℚ × ℚ) = true := inSegment_wrap_false (by norm_num) (Or.inl (by linarith)) (Or.inr (by linarith))
    have n1 : ¬ inSegment x (("TAURO", 30, 30) : String × ℚ × ℚ) = true := inSegment_nowrap_false (by norm_num) (Or.inr (by linarith))
    have n2 : ¬ inSegment x (("GÉMINIS", 60, 30) : String × ℚ × ℚ) = true := inSegment_nowrap_false (by norm_num) (Or.inr (by linarith))
    have n3 : ¬ inSegment x (("CÁNCER", 90, 30) : String × ℚ × ℚ) = true := inSegment_nowrap_false (by norm_num) (Or.inr (by linarith))
    have n4 : ¬ inSegment x (("LEO", 120, 30) : String × ℚ × ℚ) = true := inSegment_nowrap_false (by norm_num) (Or.inr (by linarith))
    have n5 : ¬ inSegment x (("VIRGO", 150, 36) : String × ℚ × ℚ) = true := inSegment_nowrap_false (by norm_num) (Or.inr (by linarith))
    have p6 : inSegment x (("LIBRA", 186, 24) : String × ℚ × ℚ) = true := inSegment_nowrap_true (by norm_num) (by linarith) (by linarith)
    have n7 : ¬ inSegment x (("ESCORPIO", 210, 30) : String × ℚ × ℚ) = true := inSegment_nowrap_false (by norm_num) (Or.inl (by linarith))
    have n8 : ¬ inSegment x (("OFIUCO", 240, 12) : String × ℚ × ℚ) = true := inSegment_nowrap_false (by norm_num) (Or.inl (by linarith))
    have n9 : ¬ inSegment x (("SAGITARIO", 252, 18) : String × ℚ × ℚ) = true := inSegment_nowrap_false (by norm_num) (Or.inl (by linarith))
    have n10 : ¬ inSegment x (("CAPRICORNIO", 270, 36) : String × ℚ × ℚ) = true := inSegment_nowrap_false (by norm_num) (Or.inl (by linarith))
    have n11 : ¬ inSegment x (("ACUARIO", 306, 18) : String × ℚ × ℚ) = true := inSegment_nowrap_false (by norm_num) (Or.inl (by linarith))
    have n12 : ¬ inSegment x (("PEGASO", 324, 6) : String × ℚ × ℚ) = true := inSegment_nowrap_false (by norm_num) (Or.inl (by linarith))
    have n13 : ¬ inSegment x (("PISCIS", 330, 24) : String × ℚ × ℚ) = true := inSegment_nowrap_false (by norm_num) (Or.inl (by linarith))
    simp only [signs]
    rw [List.filter_cons_of_neg n0, List.filter_cons_of_neg n1, List.filter_cons_of_neg n2, List.filter_cons_of_neg n3, List.filter_cons_of_neg n4, List.filter_cons_of_neg n5, List.filter_cons_of_pos p6, List.filter_cons_of_neg n7, List.filter_cons_of_neg n8, List.filter_cons_of_neg n9, List.filter_cons_of_neg n10, List.filter_cons_of_neg n11, List.filter_cons_of_neg n12, List.filter_cons_of_neg n13, List.filter_nil]
    rfl
  · have a0 : ¬((354:ℚ) ≤ x ∧ x < 30) := by rintro ⟨u, v⟩; linarith
    have b0 : ¬((330:ℚ) < 354 ∧ ((354:ℚ) ≤ x ∨ x < 30)) := by rintro ⟨-, c⟩; rcases c with c | c <;> linarith
    have a1 : ¬((30:ℚ) ≤ x ∧ x < 60) := by rintro ⟨u, v⟩; linarith
    have b1 : ¬((330:ℚ) < 30 ∧ ((30:ℚ) ≤ x ∨ x < 60)) := by rintro ⟨u, -⟩; linarith
    have a2 : ¬((60:ℚ) ≤ x ∧ x < 90) := by rintro ⟨u, v⟩; linarith
    have b2 : ¬((330:ℚ) < 60 ∧ ((60:ℚ) ≤ x ∨ x < 90)) := by rintro ⟨u, -⟩; linarith
    have a3 : ¬((90:ℚ) ≤ x ∧ x < 120) := by rintro ⟨u, v⟩; linarith
    have b3 : ¬((330:ℚ) < 90 ∧ ((90:ℚ) ≤ x ∨ x < 120)) := by rintro ⟨u, -⟩; linarith
    have a4 : ¬((120:ℚ) ≤ x ∧ x < 150) := by rintro ⟨u, v⟩; linarith
    have b4 : ¬((330:ℚ) < 120 ∧ ((120:ℚ) ≤ x ∨ x < 150)) := by rintro ⟨u, -⟩; linarith
    have a5 : ¬((150:ℚ) ≤ x ∧ x < 186) := by rintro ⟨u, v⟩; linarith
    have b5 : ¬((330:ℚ) < 150 ∧ ((150:ℚ) ≤ x ∨ x < 186)) := by rintro ⟨u, -⟩; linarith
    have pm : (186:ℚ) ≤ x ∧ x < 210 := ⟨by linarith, by linarith⟩
    simp only [signs, get_sign_loop, pymod_end0, pymod_end1, pymod_end2, pymod_end3, pymod_end4, pymod_end5, pymod_end6, pymod_end7, pymod_end8, pymod_end9, pymod_end10, pymod_end11, pymod_end12, pymod_end13]
    rw [if_neg a0, if_neg b0, if_neg a1, if_neg b1, if_neg a2, if_neg b2, if_neg a3, if_neg b3, if_neg a4, if_neg b4, if_neg a5, if_neg b5, if_pos pm]

theorem c2seg7 (x : ℚ) (h0 : (210:ℚ) ≤ x) (h1 : x < 240) :
    (signs.filter (inSegment x)).map Prod.fst = ["ESCORPIO"] ∧
    get_sign_loop x signs = some "ESCORPIO" := by
  constructor
  · have n0 : ¬ inSegment x (("ARIES", 354, 36) : String × ℚ × ℚ) = true := inSegment_wrap_false (by norm_num) (Or.inl (by linarith)) (Or.inr (by linarith))
    have n1 : ¬ inSegment x (("TAURO", 30, 30) : String × ℚ × ℚ) = true := inSegment_nowrap_false (by norm_num) (Or.inr (by linarith))
    have n2 : ¬ inSegment x (("GÉMINIS", 60, 30) : String × ℚ × ℚ) = true := inSegment_nowrap_false (by norm_num) (Or.inr (by linarith))
    have n3 : ¬ inSegment x (("CÁNCER", 90, 30) : String × ℚ × ℚ) = true := inSegment_nowrap_false (by norm_num) (Or.inr (by linarith))
    have n4 : ¬ inSegment x (("LEO", 120, 30) : String × ℚ × ℚ) = true := inSegment_nowrap_false (by norm_num) (Or.inr (by linarith))
    have n5 : ¬ inSegment x (("VIRGO", 150, 36) : String × ℚ × ℚ) = true := inSegment_nowrap_false (by norm_num) (Or.inr (by linarith))
    have n6 : ¬ inSegment x (("LIBRA", 186, 24) : String × ℚ × ℚ) = true := inSegment_nowrap_false (by norm_num) (Or.inr (by linarith))
    have p7 : inSegment x (("ESCORPIO", 210, 30) : String × ℚ × ℚ) = true := inSegment_nowrap_true (by norm_num) (by linarith) (by linarith)
    have n8 : ¬ inSegment x (("OFIUCO", 240, 12) : String × ℚ × ℚ) = true := inSegment_nowrap_false (by norm_num) (Or.inl (by linarith))
    have n9 : ¬ inSegment x (("SAGITARIO", 252, 18) : String × ℚ × ℚ) = true := inSegment_nowrap_false (by norm_num) (Or.inl (by linarith))
    have n10 : ¬ inSegment x (("CAPRICORNIO", 270, 36) : String × ℚ × ℚ) = true := inSegment_nowrap_false (by norm_num) (Or.inl (by linarith))
    have n11 : ¬ inSegment x (("ACUARIO", 306, 18) : String × ℚ × ℚ) = true := inSegment_nowrap_false (by norm_num) (Or.inl (by linarith))
    have n12 : ¬ inSegment x (("PEGASO", 324, 6) : String × ℚ × ℚ) = true := inSegment_nowrap_false (by norm_num) (Or.inl (by linarith))
    have n13 : ¬ inSegment x (("PISCIS", 330, 24) : String × ℚ × ℚ) = true := inSegment_nowrap_false (by norm_num) (Or.inl (by linarith))
    simp only [signs]
    rw [List.filter_cons_of_neg n0, List.filter_cons_of_neg n1, List.filter_cons_of_neg n2, List.filter_cons_of_neg n3, List.filter_cons_of_neg n4, List.filter_cons_of_neg n5, List.filter_cons_of_neg n6, List.filter_cons_of_pos p7, List.filter_cons_of_neg n8, List.filter_cons_of_neg n9, List.filter_cons_of_neg n10, List.filter_cons_of_neg n11, List.filter_cons_of_neg n12, List.filter_cons_of_neg n13, List.filter_nil]
    rfl
  · have a0 : ¬((354:ℚ) ≤ x ∧ x < 30) := by rintro ⟨u, v⟩; linarith
    have b0 : ¬((330:ℚ) < 354 ∧ ((354:ℚ) ≤ x ∨ x < 30)) := by rintro ⟨-, c⟩; rcases c with c | c <;> linarith
    have a1 : ¬((30:ℚ) ≤ x ∧ x < 60) := by rintro ⟨u, v⟩; linarith
    have b1 : ¬((330:ℚ) < 30 ∧ ((30:ℚ) ≤ x ∨ x < 60)) := by rintro ⟨u, -⟩; linarith
    have a2 : ¬((60:ℚ) ≤ x ∧ x < 90) := by rintro ⟨u, v⟩; linarith
    have b2 : ¬((330:ℚ) < 60 ∧ ((60:ℚ) ≤ x ∨ x < 90)) := by rintro ⟨u, -⟩; linarith
    have a3 : ¬((90:ℚ) ≤ x ∧ x < 120) := by rintro ⟨u, v⟩; linarith
    have b3 : ¬((330:ℚ) < 90 ∧ ((90:ℚ) ≤ x ∨ x < 120)) := by rintro ⟨u, -⟩; linarith
    have a4 : ¬((120:ℚ) ≤ x ∧ x < 150) := by rintro ⟨u, v⟩; linarith
    have b4 : ¬((330:ℚ) < 120 ∧ ((120:ℚ) ≤ x ∨ x < 150)) := by rintro ⟨u, -⟩; linarith
    have a5 : ¬((150:ℚ) ≤ x ∧ x < 186) := by rintro ⟨u, v⟩; linarith
    have b5 : ¬((330:ℚ) < 150 ∧ ((150:ℚ) ≤ x ∨ x < 186)) := by rintro ⟨u, -⟩; linarith
    have a6 : ¬((186:ℚ) ≤ x ∧ x < 210) := by rintro ⟨u, v⟩; linarith
    have b6 : ¬((330:ℚ) < 186 ∧ ((186:ℚ) ≤ x ∨ x < 210)) := by rintro ⟨u, -⟩; linarith
    have pm : (210:ℚ) ≤ x ∧ x < 240 := ⟨by linarith, by linarith⟩
    simp only [signs, get_sign_loop, pymod_end0, pymod_end1, pymod_end2, pymod_end3, pymod_end4, pymod_end5, pymod_end6, pymod_end7, pymod_end8, pymod_end9, pymod_end10, pymod_end11, pymod_end12, pymod_end13]
    rw [if_neg a0, if_neg b0, if_neg a1, if_neg b1, if_neg a2, if_neg b2, if_neg a3, if_neg b3, if_neg a4, if_neg b4, if_neg a5, if_neg b5, if_neg a6, if_neg b6, if_pos pm]

theorem c2seg8 (x : ℚ) (h0 : (240:ℚ) ≤ x) (h1 : x < 252) :
    (signs.filter (inSegment x)).map Prod.fst = ["OFIUCO"] ∧
    get_sign_loop x signs = some "OFIUCO" := by
  constructor
  · have n0 : ¬ inSegment x (("ARIES", 354, 36) : String × ℚ × ℚ) = true := inSegment_wrap_false (by norm_num) (Or.inl (by linarith)) (Or.inr (by linarith))
    have n1 : ¬ inSegment x (("TAURO", 30, 30) : String × ℚ × ℚ) = true := inSegment_nowrap_false (by norm_num) (Or.inr (by linarith))
    have n2 : ¬ inSegment x (("GÉMINIS", 60, 30) : String × ℚ × ℚ) = true := inSegment_nowrap_false (by norm_num) (Or.inr (by linarith))
    have n3 : ¬ inSegment x (("CÁNCER", 90, 30) : String × ℚ × ℚ) = true := inSegment_nowrap_false (by norm_num) (Or.inr (by linarith))
    have n4 : ¬ inSegment x (("LEO", 120, 30) : String × ℚ × ℚ) = true := inSegment_nowrap_false (by norm_num) (Or.inr (by linarith))
    have n5 : ¬ inSegment x (("VIRGO", 150, 36) : String × ℚ × ℚ) = true := inSegment_nowrap_false (by norm_num) (Or.inr (by linarith))
    have n6 : ¬ inSegment x (("LIBRA", 186, 24) : String × ℚ × ℚ) = true := inSegment_nowrap_false (by norm_num) (Or.inr (by linarith))
    have n7 : ¬ inSegment x (("ESCORPIO", 210, 30) : String × ℚ × ℚ) = true := inSegment_nowrap_false (by norm_num) (Or.inr (by linarith))
    have p8 : inSegment x (("OFIUCO", 240, 12) : String × ℚ × ℚ) = true := inSegment_nowrap_true (by norm_num) (by linarith) (by linarith)
    have n9 : ¬ inSegment x (("SAGITARIO", 252, 18) : String × ℚ × ℚ) = true := inSegment_nowrap_false (by norm_num) (Or.inl (by linarith))
    have n10 : ¬ inSegment x (("CAPRICORNIO", 270, 36) : String × ℚ × ℚ) = true := inSegment_nowrap_false (by norm_num) (Or.inl (by linarith))
    have n11 : ¬ inSegment x (("ACUARIO", 306, 18) : String × ℚ × ℚ) = true := inSegment_nowrap_false (by norm_num) (Or.inl (by linarith))
    have n12 : ¬ inSegment x (("PEGASO", 324, 6) : String × ℚ × ℚ) = true := inSegment_nowrap_false (by norm_num) (Or.inl (by linarith))
    have n13 : ¬ inSegment x (("PISCIS", 330, 24) : String × ℚ × ℚ) = true := inSegment_nowrap_false (by norm_num) (Or.inl (by linarith))
    simp only [signs]
    rw [List.filter_cons_of_neg n0, List.filter_cons_of_neg n1, List.filter_cons_of_neg n2, List.filter_cons_of_neg n3, List.filter_cons_of_neg n4, List.filter_cons_of_neg n5, List.filter_cons_of_neg n6, List.filter_cons_of_neg n7, List.filter_cons_of_pos p8, List.filter_cons_of_neg n9, List.filter_cons_of_neg n10, List.filter_cons_of_neg n11, List.filter_cons_of_neg n12, List.filter_cons_of_neg n13, List.filter_nil]
    rfl
  · have a0 : ¬((354:ℚ) ≤ x ∧ x < 30) := by rintro ⟨u, v⟩; linarith
    have b0 : ¬((330:ℚ) < 354 ∧ ((354:ℚ) ≤ x ∨ x < 30)) := by rintro ⟨-, c⟩; rcases c with c | c <;> linarith
    have a1 : ¬((30:ℚ) ≤ x ∧ x < 60) := by rintro ⟨u, v⟩; linarith
    have b1 : ¬((330:ℚ) < 30 ∧ ((30:ℚ) ≤ x ∨ x < 60)) := by rintro ⟨u, -⟩; linarith
    have a2 : ¬((60:ℚ) ≤ x ∧ x < 90) := by rintro ⟨u, v⟩; linarith
    have b2 : ¬((330:ℚ) < 60 ∧ ((60:ℚ) ≤ x ∨ x < 90)) := by rintro ⟨u, -⟩; linarith
    have a3 : ¬((90:ℚ) ≤ x ∧ x < 120) := by rintro ⟨u, v⟩; linarith
    have b3 : ¬((330:ℚ) < 90 ∧ ((90:ℚ) ≤ x ∨ x < 120)) := by rintro ⟨u, -⟩; linarith
    have a4 : ¬((120:ℚ) ≤ x ∧ x < 150) := by rintro ⟨u, v⟩; linarith
    have b4 : ¬((330:ℚ) < 120 ∧ ((120:ℚ) ≤ x ∨ x < 150)) := by rintro ⟨u, -⟩; linarith
    have a5 : ¬((150:ℚ) ≤ x ∧ x < 186) := by rintro ⟨u, v⟩; linarith
    have b5 : ¬((330:ℚ) < 150 ∧ ((150:ℚ) ≤ x ∨ x < 186)) := by rintro ⟨u, -⟩; linarith
    have a6 : ¬((186:ℚ) ≤ x ∧ x < 210) := by rintro ⟨u, v⟩; linarith
    have b6 : ¬((330:ℚ) < 186 ∧ ((186:ℚ) ≤ x ∨ x < 210)) := by rintro ⟨u, -⟩; linarith
    have a7 : ¬((210:ℚ) ≤ x ∧ x < 240) := by rintro ⟨u, v⟩; linarith
    have b7 : ¬((330:ℚ) < 210 ∧ ((210:ℚ) ≤ x ∨ x < 240)) := by rintro ⟨u, -⟩; linarith
    have pm : (240:ℚ) ≤ x ∧ x < 252 := ⟨by linarith, by linarith⟩
    simp only [signs, get_sign_loop, pymod_end0, pymod_end1, pymod_end2, pymod_end3, pymod_end4, pymod_end5, pymod_end6, pymod_end7, pymod_end8, pymod_end9, pymod_end10, pymod_end11, pymod_end12, pymod_end13]
    rw [if_neg a0, if_neg b0, if_neg a1, if_neg b1, if_neg a2, if_neg b2, if_neg a3, if_neg b3, if_neg a4, if_neg b4, if_neg a5, if_neg b5, if_neg a6, if_neg b6, if_neg a7, if_neg b7, if_pos pm]

theorem c2seg9 (x : ℚ) (h0 : (252:ℚ) ≤ x) (h1 : x < 270) :
    (signs.filter (inSegment x)).map Prod.fst = ["SAGITARIO"] ∧
    get_sign_loop x signs = some "SAGITARIO" := by
  constructor
  · have n0 : ¬ inSegment x (("ARIES", 354, 36) : String × ℚ × ℚ) = true := inSegment_wrap_false (by norm_num) (Or.inl (by linarith)) (Or.inr (by linarith))
    have n1 : ¬ inSegment x (("TAURO", 30, 30) : String × ℚ × ℚ) = true := inSegment_nowrap_false (by norm_num) (Or.inr (by linarith))
    have n2 : ¬ inSegment x (("GÉMINIS", 60, 30) : String × ℚ × ℚ) = true := inSegment_nowrap_false (by norm_num) (Or.inr (by linarith))
    have n3 : ¬ inSegment x (("CÁNCER", 90, 30) : String × ℚ × ℚ) = true := inSegment_nowrap_false (by norm_num) (Or.inr (by linarith))
    have n4 : ¬ inSegment x (("LEO", 120, 30) : String × ℚ × ℚ) = true := inSegment_nowrap_false (by norm_num) (Or.inr (by linarith))
    have n5 : ¬ inSegment x (("VIRGO", 150, 36) : String × ℚ × ℚ) = true := inSegment_nowrap_false (by norm_num) (Or.inr (by linarith))
    have n6 : ¬ inSegment x (("LIBRA", 186, 24) : String × ℚ × ℚ) = true := inSegment_nowrap_false (by norm_num) (Or.inr (by linarith))
    have n7 : ¬ inSegment x (("ESCORPIO", 210, 30) : String × ℚ × ℚ) = true := inSegment_nowrap_false (by norm_num) (Or.inr (by linarith))
    have n8 : ¬ inSegment x (("OFIUCO", 240, 12) : String × ℚ × ℚ) = true := inSegment_nowrap_false (by norm_num) (Or.inr (by linarith))
    have p9 : inSegment x (("SAGITARIO", 252, 18) : String × ℚ × ℚ) = true := inSegment_nowrap_true (by norm_num) (by linarith) (by linarith)
    have n10 : ¬ inSegment x (("CAPRICORNIO", 270, 36) : String × ℚ × ℚ) = true := inSegment_nowrap_false (by norm_num) (Or.inl (by linarith))
    have n11 : ¬ inSegment x (("ACUARIO", 306, 18) : String × ℚ × ℚ) = true := inSegment_nowrap_false (by norm_num) (Or.inl (by linarith))
    have n12 : ¬ inSegment x (("PEGASO", 324, 6) : String × ℚ × ℚ) = true := inSegment_nowrap_false (by norm_num) (Or.inl (by linarith))
    have n13 : ¬ inSegment x (("PISCIS", 330, 24) : String × ℚ × ℚ) = true := inSegment_nowrap_false (by norm_num) (Or.inl (by linarith))
    simp only [signs]
    rw [List.filter_cons_of_neg n0, List.filter_cons_of_neg n1, List.filter_cons_of_neg n2, List.filter_cons_of_neg n3, List.filter_cons_of_neg n4, List.filter_cons_of_neg n5, List.filter_cons_of_neg n6, List.filter_cons_of_neg n7, List.filter_cons_of_neg n8, List.filter_cons_of_pos p9, List.filter_cons_of_neg n10, List.filter_cons_of_neg n11, List.filter_cons_of_neg n12, List.filter_cons_of_neg n13, List.filter_nil]
    rfl
  · have a0 : ¬((354:ℚ) ≤ x ∧ x < 30) := by rintro ⟨u, v⟩; linarith
    have b0 : ¬((330:ℚ) < 354 ∧ ((354:ℚ) ≤ x ∨ x < 30)) := by rintro ⟨-, c⟩; rcases c with c | c <;> linarith
    have a1 : ¬((30:ℚ) ≤ x ∧ x < 60) := by rintro ⟨u, v⟩; linarith
    have b1 : ¬((330:ℚ) < 30 ∧ ((30:ℚ) ≤ x ∨ x < 60)) := by rintro ⟨u, -⟩; linarith
    have a2 : ¬((60:ℚ) ≤ x ∧ x < 90) := by rintro ⟨u, v⟩; linarith
    have b2 : ¬((330:ℚ) < 60 ∧ ((60:ℚ) ≤ x ∨ x < 90)) := by rintro ⟨u, -⟩; linarith
    have a3 : ¬((90:ℚ) ≤ x ∧ x < 120) := by rintro ⟨u, v⟩; linarith
    have b3 : ¬((330:ℚ) < 90 ∧ ((90:ℚ) ≤ x ∨ x < 120)) := by rintro ⟨u, -⟩; linarith
    have a4 : ¬((120:ℚ) ≤ x ∧ x < 150) := by rintro ⟨u, v⟩; linarith
    have b4 : ¬((330:ℚ) < 120 ∧ ((120:ℚ) ≤ x ∨ x < 150)) := by rintro ⟨u, -⟩; linarith
    have a5 : ¬((150:ℚ) ≤ x ∧ x < 186) := by rintro ⟨u, v⟩; linarith
    have b5 : ¬((330:ℚ) < 150 ∧ ((150:ℚ) ≤ x ∨ x < 186)) := by rintro ⟨u, -⟩; linarith
    have a6 : ¬((186:ℚ) ≤ x ∧ x < 210) := by rintro ⟨u, v⟩; linarith
    have b6 : ¬((330:ℚ) < 186 ∧ ((186:ℚ) ≤ x ∨ x < 210)) := by rintro ⟨u, -⟩; linarith
    have a7 : ¬((210:ℚ) ≤ x ∧ x < 240) := by rintro ⟨u, v⟩; linarith
    have b7 : ¬((330:ℚ) < 210 ∧ ((210:ℚ) ≤ x ∨ x < 240)) := by rintro ⟨u, -⟩; linarith
    have a8 : ¬((240:ℚ) ≤ x ∧ x < 252) := by rintro ⟨u, v⟩; linarith
    have b8 : ¬((330:ℚ) < 240 ∧ ((240:ℚ) ≤ x ∨ x < 252)) := by rintro ⟨u, -⟩; linarith
    have pm : (252:ℚ) ≤ x ∧ x < 270 := ⟨by linarith, by linarith⟩
    simp only [signs, get_sign_loop, pymod_end0, pymod_end1, pymod_end2, pymod_end3, pymod_end4, pymod_end5, pymod_end6, pymod_end7, pymod_end8, pymod_end9, pymod_end10, pymod_end11, pymod_end12, pymod_end13]
    rw [if_neg a0, if_neg b0, if_neg a1, if_neg b1, if_neg a2, if_neg b2, if_neg a3, if_neg b3, if_neg a4, if_neg b4, if_neg a5, if_neg b5, if_neg a6, if_neg b6, if_neg a7, if_neg b7, if_neg a8, if_neg b8, if_pos pm]

theorem c2seg10 (x : ℚ) (h0 : (270:ℚ) ≤ x) (h1 : x < 306) :
    (signs.filter (inSegment x)).map Prod.fst = ["CAPRICORNIO"] ∧
    get_sign_loop x signs = some "CAPRICORNIO" := by
  constructor
  · have n0 : ¬ inSegment x (("ARIES", 354, 36) : String × ℚ × ℚ) = true := inSegment_wrap_false (by norm_num) (Or.inl (by linarith)) (Or.inr (by linarith))
    have n1 : ¬ inSegment x (("TAURO", 30, 30) : String × ℚ × ℚ) = true := inSegment_nowrap_false (by norm_num) (Or.inr (by linarith))
    have n2 : ¬ inSegment x (("GÉMINIS", 60, 30) : String × ℚ × ℚ) = true := inSegment_nowrap_false (by norm_num) (Or.inr (by linarith))
    have n3 : ¬ inSegment x (("CÁNCER", 90, 30) : String × ℚ × ℚ) = true := inSegment_nowrap_false (by norm_num) (Or.inr (by linarith))
    have n4 : ¬ inSegment x (("LEO", 120, 30) : String × ℚ × ℚ) = true := inSegment_nowrap_false (by norm_num) (Or.inr (by linarith))
    have n5 : ¬ inSegment x (("VIRGO", 150, 36) : String × ℚ × ℚ) = true := inSegment_nowrap_false (by norm_num) (Or.inr (by linarith))
    have n6 : ¬ inSegment x (("LIBRA", 186, 24) : String × ℚ × ℚ) = true := inSegment_nowrap_false (by norm_num) (Or.inr (by linarith))
    have n7 : ¬ inSegment x (("ESCORPIO", 210, 30) : String × ℚ × ℚ) = true := inSegment_nowrap_false (by norm_num) (Or.inr (by linarith))
    have n8 : ¬ inSegment x (("OFIUCO", 240, 12) : String × ℚ × ℚ) = true := inSegment_nowrap_false (by norm_num) (Or.inr (by linarith))
    have n9 : ¬ inSegment x (("SAGITARIO", 252, 18) : String × ℚ × ℚ) = true := inSegment_nowrap_false (by norm_num) (Or.inr (by linarith))
    have p10 : inSegment x (("CAPRICORNIO", 270, 36) : String × ℚ × ℚ) = true := inSegment_nowrap_true (by norm_num) (by linarith) (by linarith)
    have n11 : ¬ inSegment x (("ACUARIO", 306, 18) : String × ℚ × ℚ) = true := inSegment_nowrap_false (by norm_num) (Or.inl (by linarith))
    have n12 : ¬ inSegment x (("PEGASO", 324, 6) : String × ℚ × ℚ) = true := inSegment_nowrap_false (by norm_num) (Or.inl (by linarith))
    have n13 : ¬ inSegment x (("PISCIS", 330, 24) : String × ℚ × ℚ) = true := inSegment_nowrap_false (by norm_num) (Or.inl (by linarith))
    simp only [signs]
    rw [List.filter_cons_of_neg n0, List.filter_cons_of_neg n1, List.filter_cons_of_neg n2, List.filter_cons_of_neg n3, List.filter_cons_of_neg n4, List.filter_cons_of_neg n5, List.filter_cons_of_neg n6, List.filter_cons_of_neg n7, List.filter_cons_of_neg n8, List.filter_cons_of_neg n9, List.filter_cons_of_pos p10, List.filter_cons_of_neg n11, List.filter_cons_of_neg n12, List.filter_cons_of_neg n13, List.filter_nil]
    rfl
  · have a0 : ¬((354:ℚ) ≤ x ∧ x < 30) := by rintro ⟨u, v⟩; linarith
    have b0 : ¬((330:ℚ) < 354 ∧ ((354:ℚ) ≤ x ∨ x < 30)) := by rintro ⟨-, c⟩; rcases c with c | c <;> linarith
    have a1 : ¬((30:ℚ) ≤ x ∧ x < 60) := by rintro ⟨u, v⟩; linarith
    have b1 : ¬((330:ℚ) < 30 ∧ ((30:ℚ) ≤ x ∨ x < 60)) := by rintro ⟨u, -⟩; linarith
    have a2 : ¬((60:ℚ) ≤ x ∧ x < 90) := by rintro ⟨u, v⟩; linarith
    have b2 : ¬((330:ℚ) < 60 ∧ ((60:ℚ) ≤ x ∨ x < 90)) := by rintro ⟨u, -⟩; linarith
    have a3 : ¬((90:ℚ) ≤ x ∧ x < 120) := by rintro ⟨u, v⟩; linarith
    have b3 : ¬((330:ℚ) < 90 ∧ ((90:ℚ) ≤ x ∨ x < 120)) := by rintro ⟨u, -⟩; linarith
    have a4 : ¬((120:ℚ) ≤ x ∧ x < 150) := by rintro ⟨u, v⟩; linarith
    have b4 : ¬((330:ℚ) < 120 ∧ ((120:ℚ) ≤ x ∨ x < 150)) := by rintro ⟨u, -⟩; linarith
    have a5 : ¬((150:ℚ) ≤ x ∧ x < 186) := by rintro ⟨u, v⟩; linarith
    have b5 : ¬((330:ℚ) < 150 ∧ ((150:ℚ) ≤ x ∨ x < 186)) := by rintro ⟨u, -⟩; linarith
    have a6 : ¬((186:ℚ) ≤ x ∧ x < 210) := by rintro ⟨u, v⟩; linarith
    have b6 : ¬((330:ℚ) < 186 ∧ ((186:ℚ) ≤ x ∨ x < 210)) := by rintro ⟨u, -⟩; linarith
    have a7 : ¬((210:ℚ) ≤ x ∧ x < 240) := by rintro ⟨u, v⟩; linarith
    have b7 : ¬((330:ℚ) < 210 ∧ ((210:ℚ) ≤ x ∨ x < 240)) := by rintro ⟨u, -⟩; linarith
    have a8 : ¬((240:ℚ) ≤ x ∧ x < 252) := by rintro ⟨u, v⟩; linarith
    have b8 : ¬((330:ℚ) < 240 ∧ ((240:ℚ) ≤ x ∨ x < 252)) := by rintro ⟨u, -⟩; linarith
    have a9 : ¬((252:ℚ) ≤ x ∧ x < 270) := by rintro ⟨u, v⟩; linarith
    have b9 : ¬((330:ℚ) < 252 ∧ ((252:ℚ) ≤ x ∨ x < 270)) := by rintro ⟨u, -⟩; linarith
    have pm : (270:ℚ) ≤ x ∧ x < 306 := ⟨by linarith, by linarith⟩
    simp only [signs, get_sign_loop, pymod_end0, pymod_end1, pymod_end2, pymod_end3, pymod_end4, pymod_end5, pymod_end6, pymod_end7, pymod_end8, pymod_end9, pymod_end10, pymod_end11, pymod_end12, pymod_end13]
    rw [if_neg a0, if_neg b0, if_neg a1, if_neg b1, if_neg a2, if_neg b2, if_neg a3, if_neg b3, if_neg a4, if_neg b4, if_neg a5, if_neg b5, if_neg a6, if_neg b6, if_neg a7, if_neg b7, if_neg a8, if_neg b8, if_neg a9, if_neg b9, if_pos pm]

theorem c2seg11 (x : ℚ) (h0 : (306:ℚ) ≤ x) (h1 : x < 324) :
    (signs.filter (inSegment x)).map Prod.fst = ["ACUARIO"] ∧
    get_sign_loop x signs = some "ACUARIO" := by
  constructor
  · have n0 : ¬ inSegment x (("ARIES", 354, 36) : String × ℚ × ℚ) = true := inSegment_wrap_false (by norm_num) (Or.inl (by linarith)) (Or.inr (by linarith))
    have n1 : ¬ inSegment x (("TAURO", 30, 30) : String × ℚ × ℚ) = true := inSegment_nowrap_false (by norm_num) (Or.inr (by linarith))
    have n2 : ¬ inSegment x (("GÉMINIS", 60, 30) : String × ℚ × ℚ) = true := inSegment_nowrap_false (by norm_num) (Or.inr (by linarith))
    have n3 : ¬ inSegment x (("CÁNCER", 90, 30) : String × ℚ × ℚ) = true := inSegment_nowrap_false (by norm_num) (Or.inr (by linarith))
    have n4 : ¬ inSegment x (("LEO", 120, 30) : String × ℚ × ℚ) = true := inSegment_nowrap_false (by norm_num) (Or.inr (by linarith))
    have n5 : ¬ inSegment x (("VIRGO", 150, 36) : String × ℚ × ℚ) = true := inSegment_nowrap_false (by norm_num) (Or.inr (by linarith))
    have n6 : ¬ inSegment x (("LIBRA", 186, 24) : String × ℚ × ℚ) = true := inSegment_nowrap_false (by norm_num) (Or.inr (by linarith))
    have n7 : ¬ inSegment x (("ESCORPIO", 210, 30) : String × ℚ × ℚ) = true := inSegment_nowrap_false (by norm_num) (Or.inr (by linarith))
    have n8 : ¬ inSegment x (("OFIUCO", 240, 12) : String × ℚ × ℚ) = true := inSegment_nowrap_false (by norm_num) (Or.inr (by linarith))
    have n9 : ¬ inSegment x (("SAGITARIO", 252, 18) : String × ℚ × ℚ) = true := inSegment_nowrap_false (by norm_num) (Or.inr (by linarith))
    have n10 : ¬ inSegment x (("CAPRICORNIO", 270, 36) : String × ℚ × ℚ) = true := inSegment_nowrap_false (by norm_num) (Or.inr (by linarith))
    have p11 : inSegment x (("ACUARIO", 306, 18) : String × ℚ × ℚ) = true := inSegment_nowrap_true (by norm_num) (by linarith) (by linarith)
    have n12 : ¬ inSegment x (("PEGASO", 324, 6) : String × ℚ × ℚ) = true := inSegment_nowrap_false (by norm_num) (Or.inl (by linarith))
    have n13 : ¬ inSegment x (("PISCIS", 330, 24) : String × ℚ × ℚ) = true := inSegment_nowrap_false (by norm_num) (Or.inl (by linarith))
    simp only [signs]
    rw [List.filter_cons_of_neg n0, List.filter_cons_of_neg n1, List.filter_cons_of_neg n2, List.filter_cons_of_neg n3, List.filter_cons_of_neg n4, List.filter_cons_of_neg n5, List.filter_cons_of_neg n6, List.filter_cons_of_neg n7, List.filter_cons_of_neg n8, List.filter_cons_of_neg n9, List.filter_cons_of_neg n10, List.filter_cons_of_pos p11, List.filter_cons_of_neg n12, List.filter_cons_of_neg n13, List.filter_nil]
    rfl
  · have a0 : ¬((354:ℚ) ≤ x ∧ x < 30) := by rintro ⟨u, v⟩; linarith
    have b0 : ¬((330:ℚ) < 354 ∧ ((354:ℚ) ≤ x ∨ x < 30)) := by rintro ⟨-, c⟩; rcases c with c | c <;> linarith
    have a1 : ¬((30:ℚ) ≤ x ∧ x < 60) := by rintro ⟨u, v⟩; linarith
    have b1 : ¬((330:ℚ) < 30 ∧ ((30:ℚ) ≤ x ∨ x < 60)) := by rintro ⟨u, -⟩; linarith
    have a2 : ¬((60:ℚ) ≤ x ∧ x < 90) := by rintro ⟨u, v⟩; linarith
    have b2 : ¬((330:ℚ) < 60 ∧ ((60:ℚ) ≤ x ∨ x < 90)) := by rintro ⟨u, -⟩; linarith
    have a3 : ¬((90:ℚ) ≤ x ∧ x < 120) := by rintro ⟨u, v⟩; linarith
    have b3 : ¬((330:ℚ) < 90 ∧ ((90:ℚ) ≤ x ∨ x < 120)) := by rintro ⟨u, -⟩; linarith
    have a4 : ¬((120:ℚ) ≤ x ∧ x < 150) := by rintro ⟨u, v⟩; linarith
    have b4 : ¬((330:ℚ) < 120 ∧ ((120:ℚ) ≤ x ∨ x < 150)) := by rintro ⟨u, -⟩; linarith
    have a5 : ¬((150:ℚ) ≤ x ∧ x < 186) := by rintro ⟨u, v⟩; linarith
    have b5 : ¬((330:ℚ) < 150 ∧ ((150:ℚ) ≤ x ∨ x < 186)) := by rintro ⟨u, -⟩; linarith
    have a6 : ¬((186:ℚ) ≤ x ∧ x < 210) := by rintro ⟨u, v⟩; linarith
    have b6 : ¬((330:ℚ) < 186 ∧ ((186:ℚ) ≤ x ∨ x < 210)) := by rintro ⟨u, -⟩; linarith
    have a7 : ¬((210:ℚ) ≤ x ∧ x < 240) := by rintro ⟨u, v⟩; linarith
    have b7 : ¬((330:ℚ) < 210 ∧ ((210:ℚ) ≤ x ∨ x < 240)) := by rintro ⟨u, -⟩; linarith
    have a8 : ¬((240:ℚ) ≤ x ∧ x < 252) := by rintro ⟨u, v⟩; linarith
    have b8 : ¬((330:ℚ) < 240 ∧ ((240:ℚ) ≤ x ∨ x < 252)) := by rintro ⟨u, -⟩; linarith
    have a9 : ¬((252:ℚ) ≤ x ∧ x < 270) := by rintro ⟨u, v⟩; linarith
    have b9 : ¬((330:ℚ) < 252 ∧ ((252:ℚ) ≤ x ∨ x < 270)) := by rintro ⟨u, -⟩; linarith
    have a10 : ¬((270:ℚ) ≤ x ∧ x < 306) := by rintro ⟨u, v⟩; linarith
    have b10 : ¬((330:ℚ) < 270 ∧ ((270:ℚ) ≤ x ∨ x < 306)) := by rintro ⟨u, -⟩; linarith
    have pm : (306:ℚ) ≤ x ∧ x < 324 := ⟨by linarith, by linarith⟩
    simp only [signs, get_sign_loop, pymod_end0, pymod_end1, pymod_end2, pymod_end3, pymod_end4, pymod_end5, pymod_end6, pymod_end7, pymod_end8, pymod_end9, pymod_end10, pymod_end11, pymod_end12, pymod_end13]
    rw [if_neg a0, if_neg b0, if_neg a1, if_neg b1, if_neg a2, if_neg b2, if_neg a3, if_neg b3, if_neg a4, if_neg b4, if_neg a5, if_neg b5, if_neg a6, if_neg b6, if_neg a7, if_neg b7, if_neg a8, if_neg b8, if_neg a9, if_neg b9, if_neg a10, if_neg b10, if_pos pm]

theorem c2seg12 (x : ℚ) (h0 : (324:ℚ) ≤ x) (h1 : x < 330) :
    (signs.filter (inSegment x)).map Prod.fst = ["PEGASO"] ∧
    get_sign_loop x signs = some "PEGASO" := by
  constructor
  · have n0 : ¬ inSegment x (("ARIES", 354, 36) : String × ℚ × ℚ) = true := inSegment_wrap_false (by norm_num) (Or.inl (by linarith)) (Or.inr (by linarith))
    have n1 : ¬ inSegment x (("TAURO", 30, 30) : String × ℚ × ℚ) = true := inSegment_nowrap_false (by norm_num) (Or.inr (by linarith))
    have n2 : ¬ inSegment x (("GÉMINIS", 60, 30) : String × ℚ × ℚ) = true := inSegment_nowrap_false (by norm_num) (Or.inr (by linarith))
    have n3 : ¬ inSegment x (("CÁNCER", 90, 30) : String × ℚ × ℚ) = true := inSegment_nowrap_false (by norm_num) (Or.inr (by linarith))
    have n4 : ¬ inSegment x (("LEO", 120, 30) : String × ℚ × ℚ) = true := inSegment_nowrap_false (by norm_num) (Or.inr (by linarith))
    have n5 : ¬ inSegment x (("VIRGO", 150, 36) : String × ℚ × ℚ) = true := inSegment_nowrap_false (by norm_num) (Or.inr (by linarith))
    have n6 : ¬ inSegment x (("LIBRA", 186, 24) : String × ℚ × ℚ) = true := inSegment_nowrap_false (by norm_num) (Or.inr (by linarith))
    have n7 : ¬ inSegment x (("ESCORPIO", 210, 30) : String × ℚ × ℚ) = true := inSegment_nowrap_false (by norm_num) (Or.inr (by linarith))
    have n8 : ¬ inSegment x (("OFIUCO", 240, 12) : String × ℚ × ℚ) = true := inSegment_nowrap_false (by norm_num) (Or.inr (by linarith))
    have n9 : ¬ inSegment x (("SAGITARIO", 252, 18) : String × ℚ × ℚ) = true := inSegment_nowrap_false (by norm_num) (Or.inr (by linarith))
    have n10 : ¬ inSegment x (("CAPRICORNIO", 270, 36) : String × ℚ × ℚ) = true := inSegment_nowrap_false (by norm_num) (Or.inr (by linarith))
    have n11 : ¬ inSegment x (("ACUARIO", 306, 18) : String × ℚ × ℚ) = true := inSegment_nowrap_false (by norm_num) (Or.inr (by linarith))
    have p12 : inSegment x (("PEGASO", 324, 6) : String × ℚ × ℚ) = true := inSegment_nowrap_true (by norm_num) (by linarith) (by linarith)
    have n13 : ¬ inSegment x (("PISCIS", 330, 24) : String × ℚ × ℚ) = true := inSegment_nowrap_false (by norm_num) (Or.inl (by linarith))
    simp only [signs]
    rw [List.filter_cons_of_neg n0, List.filter_cons_of_neg n1, List.filter_cons_of_neg n2, List.filter_cons_of_neg n3, List.filter_cons_of_neg n4, List.filter_cons_of_neg n5, List.filter_cons_of_neg n6, List.filter_cons_of_neg n7, List.filter_cons_of_neg n8, List.filter_cons_of_neg n9, List.filter_cons_of_neg n10, List.filter_cons_of_neg n11, List.filter_cons_of_pos p12, List.filter_cons_of_neg n13, List.filter_nil]
    rfl
  · have a0 : ¬((354:ℚ) ≤ x ∧ x < 30) := by rintro ⟨u, v⟩; linarith
    have b0 : ¬((330:ℚ) < 354 ∧ ((354:ℚ) ≤ x ∨ x < 30)) := by rintro ⟨-, c⟩; rcases c with c | c <;> linarith
    have a1 : ¬((30:ℚ) ≤ x ∧ x < 60) := by rintro ⟨u, v⟩; linarith
    have b1 : ¬((330:ℚ) < 30 ∧ ((30:ℚ) ≤ x ∨ x < 60)) := by rintro ⟨u, -⟩; linarith
    have a2 : ¬((60:ℚ) ≤ x ∧ x < 90) := by rintro ⟨u, v⟩; linarith
    have b2 : ¬((330:ℚ) < 60 ∧ ((60:ℚ) ≤ x ∨ x < 90)) := by rintro ⟨u, -⟩; linarith
    have a3 : ¬((90:ℚ) ≤ x ∧ x < 120) := by rintro ⟨u, v⟩; linarith
    have b3 : ¬((330:ℚ) < 90 ∧ ((90:ℚ) ≤ x ∨ x < 120)) := by rintro ⟨u, -⟩; linarith
    have a4 : ¬((120:ℚ) ≤ x ∧ x < 150) := by rintro ⟨u, v⟩; linarith
    have b4 : ¬((330:ℚ) < 120 ∧ ((120:ℚ) ≤ x ∨ x < 150)) := by rintro ⟨u, -⟩; linarith
    have a5 : ¬((150:ℚ) ≤ x ∧ x < 186) := by rintro ⟨u, v⟩; linarith
    have b5 : ¬((330:ℚ) < 150 ∧ ((150:ℚ) ≤ x ∨ x < 186)) := by rintro ⟨u, -⟩; linarith
    have a6 : ¬((186:ℚ) ≤ x ∧ x < 210) := by rintro ⟨u, v⟩; linarith
    have b6 : ¬((330:ℚ) < 186 ∧ ((186:ℚ) ≤ x ∨ x < 210)) := by rintro ⟨u, -⟩; linarith
    have a7 : ¬((210:ℚ) ≤ x ∧ x < 240) := by rintro ⟨u, v⟩; linarith
    have b7 : ¬((330:ℚ) < 210 ∧ ((210:ℚ) ≤ x ∨ x < 240)) := by rintro ⟨u, -⟩; linarith
    have a8 : ¬((240:ℚ) ≤ x ∧ x < 252) := by rintro ⟨u, v⟩; linarith
    have b8 : ¬((330:ℚ) < 240 ∧ ((240:ℚ) ≤ x ∨ x < 252)) := by rintro ⟨u, -⟩; linarith
    have a9 : ¬((252:ℚ) ≤ x ∧ x < 270) := by rintro ⟨u, v⟩; linarith
    have b9 : ¬((330:ℚ) < 252 ∧ ((252:ℚ) ≤ x ∨ x < 270)) := by rintro ⟨u, -⟩; linarith
    have a10 : ¬((270:ℚ) ≤ x ∧ x < 306) := by rintro ⟨u, v⟩; linarith
    have b10 : ¬((330:ℚ) < 270 ∧ ((270:ℚ) ≤ x ∨ x < 306)) := by rintro ⟨u, -⟩; linarith
    have a11 : ¬((306:ℚ) ≤ x ∧ x < 324) := by rintro ⟨u, v⟩; linarith
    have b11 : ¬((330:ℚ) < 306 ∧ ((306:ℚ) ≤ x ∨ x < 324)) := by rintro ⟨u, -⟩; linarith
    have pm : (324:ℚ) ≤ x ∧ x < 330 := ⟨by linarith, by linarith⟩
    simp only [signs, get_sign_loop, pymod_end0, pymod_end1, pymod_end2, pymod_end3, pymod_end4, pymod_end5, pymod_end6, pymod_end7, pymod_end8, pymod_end9, pymod_end10, pymod_end11, pymod_end12, pymod_end13]
    rw [if_neg a0, if_neg b0, if_neg a1, if_neg b1, if_neg a2, if_neg b2, if_neg a3, if_neg b3, if_neg a4, if_neg b4, if_neg a5, if_neg b5, if_neg a6, if_neg b6, if_neg a7, if_neg b7, if_neg a8, if_neg b8, if_neg a9, if_neg b9, if_neg a10, if_neg b10, if_neg a11, if_neg b11, if_pos pm]

theorem c2seg13 (x : ℚ) (h0 : (330:ℚ) ≤ x) (h1 : x < 354) :
    (signs.filter (inSegment x)).map Prod.fst = ["PISCIS"] ∧
    get_sign_loop x signs = some "PISCIS" := by
  constructor
  · have n0 : ¬ inSegment x (("ARIES", 354, 36) : String × ℚ × ℚ) = true := inSegment_wrap_false (by norm_num) (Or.inl (by linarith)) (Or.inr (by linarith))
    have n1 : ¬ inSegment x (("TAURO", 30, 30) : String × ℚ × ℚ) = true := inSegment_nowrap_false (by norm_num) (Or.inr (by linarith))
    have n2 : ¬ inSegment x (("GÉMINIS", 60, 30) : String × ℚ × ℚ) = true := inSegment_nowrap_false (by norm_num) (Or.inr (by linarith))
    have n3 : ¬ inSegment x (("CÁNCER", 90, 30) : String × ℚ × ℚ) = true := inSegment_nowrap_false (by norm_num) (Or.inr (by linarith))
    have n4 : ¬ inSegment x (("LEO", 120, 30) : String × ℚ × ℚ) = true := inSegment_nowrap_false (by norm_num) (Or.inr (by linarith))
    have n5 : ¬ inSegment x (("VIRGO", 150, 36) : String × ℚ × ℚ) = true := inSegment_nowrap_false (by norm_num) (Or.inr (by linarith))
    have n6 : ¬ inSegment x (("LIBRA", 186, 24) : String × ℚ × ℚ) = true := inSegment_nowrap_false (by norm_num) (Or.inr (by linarith))
    have n7 : ¬ inSegment x (("ESCORPIO", 210, 30) : String × ℚ × ℚ) = true := inSegment_nowrap_false (by norm_num) (Or.inr (by linarith))
    have n8 : ¬ inSegment x (("OFIUCO", 240, 12) : String × ℚ × ℚ) = true := inSegment_nowrap_false (by norm_num) (Or.inr (by linarith))
    have n9 : ¬ inSegment x (("SAGITARIO", 252, 18) : String × ℚ × ℚ) = true := inSegment_nowrap_false (by norm_num) (Or.inr (by linarith))
    have n10 : ¬ inSegment x (("CAPRICORNIO", 270, 36) : String × ℚ × ℚ) = true := inSegment_nowrap_false (by norm_num) (Or.inr (by linarith))
    have n11 : ¬ inSegment x (("ACUARIO", 306, 18) : String × ℚ × ℚ) = true := inSegment_nowrap_false (by norm_num) (Or.inr (by linarith))
    have n12 : ¬ inSegment x (("PEGASO", 324, 6) : String × ℚ × ℚ) = true := inSegment_nowrap_false (by norm_num) (Or.inr (by linarith))
    have p13 : inSegment x (("PISCIS", 330, 24) : String × ℚ × ℚ) = true := inSegment_nowrap_true (by norm_num) (by linarith) (by linarith)
    simp only [signs]
    rw [List.filter_cons_of_neg n0, List.filter_cons_of_neg n1, List.filter_cons_of_neg n2, List.filter_cons_of_neg n3, List.filter_cons_of_neg n4, List.filter_cons_of_neg n5, List.filter_cons_of_neg n6, List.filter_cons_of_neg n7, List.filter_cons_of_neg n8, List.filter_cons_of_neg n9, List.filter_cons_of_neg n10, List.filter_cons_of_neg n11, List.filter_cons_of_neg n12, List.filter_cons_of_pos p13, List.filter_nil]
    rfl
  · have a0 : ¬((354:ℚ) ≤ x ∧ x < 30) := by rintro ⟨u, v⟩; linarith
    have b0 : ¬((330:ℚ) < 354 ∧ ((354:ℚ) ≤ x ∨ x < 30)) := by rintro ⟨-, c⟩; rcases c with c | c <;> linarith
    have a1 : ¬((30:ℚ) ≤ x ∧ x < 60) := by rintro ⟨u, v⟩; linarith
    have b1 : ¬((330:ℚ) < 30 ∧ ((30:ℚ) ≤ x ∨ x < 60)) := by rintro ⟨u, -⟩; linarith
    have a2 : ¬((60:ℚ) ≤ x ∧ x < 90) := by rintro ⟨u, v⟩; linarith
    have b2 : ¬((330:ℚ) < 60 ∧ ((60:ℚ) ≤ x ∨ x < 90)) := by rintro ⟨u, -⟩; linarith
    have a3 : ¬((90:ℚ) ≤ x ∧ x < 120) := by rintro ⟨u, v⟩; linarith
    have b3 : ¬((330:ℚ) < 90 ∧ ((90:ℚ) ≤ x ∨ x < 120)) := by rintro ⟨u, -⟩; linarith
    have a4 : ¬((120:ℚ) ≤ x ∧ x < 150) := by rintro ⟨u, v⟩; linarith
    have b4 : ¬((330:ℚ) < 120 ∧ ((120:ℚ) ≤ x ∨ x < 150)) := by rintro ⟨u, -⟩; linarith
    have a5 : ¬((150:ℚ) ≤ x ∧ x < 186) := by rintro ⟨u, v⟩; linarith
    have b5 : ¬((330:ℚ) < 150 ∧ ((150:ℚ) ≤ x ∨ x < 186)) := by rintro ⟨u, -⟩; linarith
    have a6 : ¬((186:ℚ) ≤ x ∧ x < 210) := by rintro ⟨u, v⟩; linarith
    have b6 : ¬((330:ℚ) < 186 ∧ ((186:ℚ) ≤ x ∨ x < 210)) := by rintro ⟨u, -⟩; linarith
    have a7 : ¬((210:ℚ) ≤ x ∧ x < 240) := by rintro ⟨u, v⟩; linarith
    have b7 : ¬((330:ℚ) < 210 ∧ ((210:ℚ) ≤ x ∨ x < 240)) := by rintro ⟨u, -⟩; linarith
    have a8 : ¬((240:ℚ) ≤ x ∧ x < 252) := by rintro ⟨u, v⟩; linarith
    have b8 : ¬((330:ℚ) < 240 ∧ ((240:ℚ) ≤ x ∨ x < 252)) := by rintro ⟨u, -⟩; linarith
    have a9 : ¬((252:ℚ) ≤ x ∧ x < 270) := by rintro ⟨u, v⟩; linarith
    have b9 : ¬((330:ℚ) < 252 ∧ ((252:ℚ) ≤ x ∨ x < 270)) := by rintro ⟨u, -⟩; linarith
    have a10 : ¬((270:ℚ) ≤ x ∧ x < 306) := by rintro ⟨u, v⟩; linarith
    have b10 : ¬((330:ℚ) < 270 ∧ ((270:ℚ) ≤ x ∨ x < 306)) := by rintro ⟨u, -⟩; linarith
    have a11 : ¬((306:ℚ) ≤ x ∧ x < 324) := by rintro ⟨u, v⟩; linarith
    have b11 : ¬((330:ℚ) < 306 ∧ ((306:ℚ) ≤ x ∨ x < 324)) := by rintro ⟨u, -⟩; linarith
    have a12 : ¬((324:ℚ) ≤ x ∧ x < 330) := by rintro ⟨u, v⟩; linarith
    have b12 : ¬((330:ℚ) < 324 ∧ ((324:ℚ) ≤ x ∨ x < 330)) := by rintro ⟨u, -⟩; linarith
    have pm : (330:ℚ) ≤ x ∧ x < 354 := ⟨by linarith, by linarith⟩
    simp only [signs, get_sign_loop, pymod_end0, pymod_end1, pymod_end2, pymod_end3, pymod_end4, pymod_end5, pymod_end6, pymod_end7, pymod_end8, pymod_end9, pymod_end10, pymod_end11, pymod_end12, pymod_end13]
    rw [if_neg a0, if_neg b0, if_neg a1, if_neg b1, if_neg a2, if_neg b2, if_neg a3, if_neg b3, if_neg a4, if_neg b4, if_neg a5, if_neg b5, if_neg a6, if_neg b6, if_neg a7, if_neg b7, if_neg a8, if_neg b8, if_neg a9, if_neg b9, if_neg a10, if_neg b10, if_neg a11, if_neg b11, if_neg a12, if_neg b12, if_pos pm]

theorem c2seg14 (x : ℚ) (h0 : (354:ℚ) ≤ x) (h1 : x < 360) :
    (signs.filter (inSegment x)).map Prod.fst = ["ARIES"] ∧
    get_sign_loop x signs = some "ARIES" := by
  constructor
  · have p0 : inSegment x (("ARIES", 354, 36) : String × ℚ × ℚ) = true := inSegment_wrap_true_high (by norm_num) (by linarith) (by linarith)
    have n1 : ¬ inSegment x (("TAURO", 30, 30) : String × ℚ × ℚ) = true := inSegment_nowrap_false (by norm_num) (Or.inr (by linarith))
    have n2 : ¬ inSegment x (("GÉMINIS", 60, 30) : String × ℚ × ℚ) = true := inSegment_nowrap_false (by norm_num) (Or.inr (by linarith))
    have n3 : ¬ inSegment x (("CÁNCER", 90, 30) : String × ℚ × ℚ) = true := inSegment_nowrap_false (by norm_num) (Or.inr (by linarith))
    have n4 : ¬ inSegment x (("LEO", 120, 30) : String × ℚ × ℚ) = true := inSegment_nowrap_false (by norm_num) (Or.inr (by linarith))
    have n5 : ¬ inSegment x (("VIRGO", 150, 36) : String × ℚ × ℚ) = true := inSegment_nowrap_false (by norm_num) (Or.inr (by linarith))
    have n6 : ¬ inSegment x (("LIBRA", 186, 24) : String × ℚ × ℚ) = true := inSegment_nowrap_false (by norm_num) (Or.inr (by linarith))
    have n7 : ¬ inSegment x (("ESCORPIO", 210, 30) : String × ℚ × ℚ) = true := inSegment_nowrap_false (by norm_num) (Or.inr (by linarith))
    have n8 : ¬ inSegment x (("OFIUCO", 240, 12) : String × ℚ × ℚ) = true := inSegment_nowrap_false (by norm_num) (Or.inr (by linarith))
    have n9 : ¬ inSegment x (("SAGITARIO", 252, 18) : String × ℚ × ℚ) = true := inSegment_nowrap_false (by norm_num) (Or.inr (by linarith))
    have n10 : ¬ inSegment x (("CAPRICORNIO", 270, 36) : String × ℚ × ℚ) = true := inSegment_nowrap_false (by norm_num) (Or.inr (by linarith))
    have n11 : ¬ inSegment x (("ACUARIO", 306, 18) : String × ℚ × ℚ) = true := inSegment_nowrap_false (by norm_num) (Or.inr (by linarith))
    have n12 : ¬ inSegment x (("PEGASO", 324, 6) : String × ℚ × ℚ) = true := inSegment_nowrap_false (by norm_num) (Or.inr (by linarith))
    have n13 : ¬ inSegment x (("PISCIS", 330, 24) : String × ℚ × ℚ) = true := inSegment_nowrap_false (by norm_num) (Or.inr (by linarith))
    simp only [signs]
    rw [List.filter_cons_of_pos p0, List.filter_cons_of_neg n1, List.filter_cons_of_neg n2, List.filter_cons_of_neg n3, List.filter_cons_of_neg n4, List.filter_cons_of_neg n5, List.filter_cons_of_neg n6, List.filter_cons_of_neg n7, List.filter_cons_of_neg n8, List.filter_cons_of_neg n9, List.filter_cons_of_neg n10, List.filter_cons_of_neg n11, List.filter_cons_of_neg n12, List.filter_cons_of_neg n13, List.filter_nil]
    rfl
  · have a0 : ¬((354:ℚ) ≤ x ∧ x < 30) := by rintro ⟨u, v⟩; linarith
    have pm : (330:ℚ) < 354 ∧ ((354:ℚ) ≤ x ∨ x < 30) := ⟨by norm_num, Or.inl (by linarith)⟩
    simp only [signs, get_sign_loop, pymod_end0, pymod_end1, pymod_end2, pymod_end3, pymod_end4, pymod_end5, pymod_end6, pymod_end7, pymod_end8, pymod_end9, pymod_end10, pymod_end11, pymod_end12, pymod_end13]
    rw [if_neg a0, if_pos pm]



/-- Claim C2: for every longitude `L`, after normalization modulo 360 exactly
one segment of the fixed 14-entry sign table contains it — the list of
segments whose interval (`[start, start+span)`, with wraparound for the
segment starting above 330°) contains the normalized longitude is exactly
the one whose name `get_sign` returns — and the scanning loop always finds
a match, so the trailing default-to-`"ARIES"` fallback is unreachable. -/
theorem get_sign_partition (L : ℚ) :
    ((signs.filter (inSegment (pymod L 360))).map Prod.fst = [get_sign L]) ∧
    get_sign_loop (pymod L 360) signs = some (get_sign L) := by
  have hx0 : (0:ℚ) ≤ pymod L 360 := pymod_nonneg L (by norm_num)
  have hx1 : pymod L 360 < 360 := pymod_lt L (by norm_num)
  set x := pymod L 360 with hxdef
  have hget : ∀ n, get_sign_loop x signs = some n → get_sign L = n := by
    intro n h
    unfold get_sign
    rw [← hxdef, h]
    rfl
  rcases lt_or_le x 30 with h1 | h1
  · obtain ⟨hf, hl⟩ := c2seg0 x hx0 h1
    rw [hget _ hl]; exact ⟨hf, hl⟩
  rcases lt_or_le x 60 with h2 | h2
  · obtain ⟨hf, hl⟩ := c2seg1 x h1 h2
    rw [hget _ hl]; exact ⟨hf, hl⟩
  rcases lt_or_le x 90 with h3 | h3
  · obtain ⟨hf, hl⟩ := c2seg2 x h2 h3
    rw [hget _ hl]; exact ⟨hf, hl⟩
  rcases lt_or_le x 120 with h4 | h4
  · obtain ⟨hf, hl⟩ := c2seg3 x h3 h4
    rw [hget _ hl]; exact ⟨hf, hl⟩
  rcases lt_or_le x 150 with h5 | h5
  · obtain ⟨hf, hl⟩ := c2seg4 x h4 h5
    rw [hget _ hl]; exact ⟨hf, hl⟩
  rcases lt_or_le x 186 with h6 | h6
  · obtain ⟨hf, hl⟩ := c2seg5 x h5 h6
    rw [hget _ hl]; exact ⟨hf, hl⟩
  rcases lt_or_le x 210 with h7 | h7
  · obtain ⟨hf, hl⟩ := c2seg6 x h6 h7
    rw [hget _ hl]; exact ⟨hf, hl⟩
  rcases lt_or_le x 240 with h8 | h8
  · obtain ⟨hf, hl⟩ := c2seg7 x h7 h8
    rw [hget _ hl]; exact ⟨hf, hl⟩
  rcases lt_or_le x 252 with h9 | h9
  · obtain ⟨hf, hl⟩ := c2seg8 x h8 h9
    rw [hget _ hl]; exact ⟨hf, hl⟩
  rcases lt_or_le x 270 with h10 | h10
  · obtain ⟨hf, hl⟩ := c2seg9 x h9 h10
    rw [hget _ hl]; exact ⟨hf, hl⟩
  rcases lt_or_le x 306 with h11 | h11
  · obtain ⟨hf, hl⟩ := c2seg10 x h10 h11
    rw [hget _ hl]; exact ⟨hf, hl⟩
  rcases lt_or_le x 324 with h12 | h12
  · obtain ⟨hf, hl⟩ := c2seg11 x h11 h12
    rw [hget _ hl]; exact ⟨hf, hl⟩
  rcases lt_or_le x 330 with h13 | h13
  · obtain ⟨hf, hl⟩ := c2seg12 x h12 h13
    rw [hget _ hl]; exact ⟨hf, hl⟩
  rcases lt_or_le x 354 with h14 | h14
  · obtain ⟨hf, hl⟩ := c2seg13 x h13 h14
    rw [hget _ hl]; exact ⟨hf, hl⟩
  obtain ⟨hf, hl⟩ := c2seg14 x h14 hx1
  rw [hget _ hl]; exact ⟨hf, hl⟩


/-- Claim C3: with country `"spain"`, `determinar_horario_verano` returns
`false` for every date before 1974; for 1974-1975 it is true exactly from
April 13 through October 6; for 1976-1996 exactly for months strictly
between March and October; from 1997 on exactly for months strictly between
March and October plus March from day 25 and October up to day 25.
In particular June 2000 is `true` and every month of 1970 is `false`. -/
theorem spain_dst_rule (anio mes dia : ℤ) (hemisferio : String) :
    (anio < 1974 →
      determinar_horario_verano anio mes dia hemisferio "spain" = false) ∧
    (1974 ≤ anio → anio ≤ 1975 →
      (determinar_horario_verano anio mes dia hemisferio "spain" = true ↔
        ((4 < mes ∧ mes < 10) ∨ (mes = 4 ∧ 13 ≤ dia) ∨ (mes = 10 ∧ dia ≤ 6)))) ∧
    (1976 ≤ anio → anio ≤ 1996 →
      (determinar_horario_verano anio mes dia hemisferio "spain" = true ↔
        (3 < mes ∧ mes < 10))) ∧
    (1997 ≤ anio →
      (determinar_horario_verano anio mes dia hemisferio "spain" = true ↔
        ((3 < mes ∧ mes < 10) ∨ (mes = 3 ∧ 25 ≤ dia) ∨ (mes = 10 ∧ dia ≤ 25)))) ∧
    (anio = 2000 → mes = 6 →
      determinar_horario_verano anio mes dia hemisferio "spain" = true) ∧
    (anio = 1970 →
      determinar_horario_verano anio mes dia hemisferio "spain" = false) := by
  have hcond : (containsSubL "spain".toList (pyLower "spain")
      || containsSubL "españa".toList (pyLower "spain")) = true := by decide
  unfold determinar_horario_verano
  rw [hcond]
  simp only [if_true]
  refine ⟨?_, ?_, ?_, ?_, ?_, ?_⟩
  · intro h
    rw [if_pos h]
  · intro h h2
    rw [if_neg (by omega), if_pos (by omega)]
    simp only [decide_eq_true_eq]
  · intro h h2
    rw [if_neg (by omega), if_neg (by omega), if_pos (by omega)]
    simp only [decide_eq_true_eq]
  · intro h
    rw [if_neg (by omega), if_neg (by omega), if_neg (by omega)]
    simp only [decide_eq_true_eq]
  · intro h h2
    rw [if_neg (by omega), if_neg (by omega), if_neg (by omega)]
    simp only [decide_eq_true_eq]
    omega
  · intro h
    rw [if_pos (by omega)]

/-- Witness for C3: Spain, 2000-06-15 is DST; Spain, 1970-06-15 is not. -/
theorem spain_dst_rule_witness :
    determinar_horario_verano 2000 6 15 "norte" "spain" = true ∧
    determinar_horario_verano 1970 6 15 "norte" "spain" = false :=
  ⟨(spain_dst_rule 2000 6 15 "norte").2.2.2.2.1 rfl rfl,
   (spain_dst_rule 1970 6 15 "norte").2.2.2.2.2 rfl⟩

/-- Claim C4: `get_house_number` returns
`1 + floor(((longitude - asc_longitude) mod 360) / 30)`, which already lies
in `{1, ..., 12}` (the wrap branch is the identity here), and the Ascendant
itself falls in house 1. -/
theorem get_house_number_formula (l a : ℚ) :
    get_house_number l a = 1 + ⌊pymod (l - a) 360 / 30⌋ ∧
    1 ≤ get_house_number l a ∧ get_house_number l a ≤ 12 ∧
    get_house_number a a = 1 := by
  have key : ∀ u v : ℚ, get_house_number u v = 1 + ⌊pymod (u - v) 360 / 30⌋ ∧
      1 ≤ 1 + ⌊pymod (u - v) 360 / 30⌋ ∧ 1 + ⌊pymod (u - v) 360 / 30⌋ ≤ 12 := by
    intro u v
    have hd0 : 0 ≤ pymod (u - v) 360 := pymod_nonneg _ (by norm_num)
    have hd1 : pymod (u - v) 360 < 360 := pymod_lt _ (by norm_num)
    have hq0 : 0 ≤ pymod (u - v) 360 / 30 := by positivity
    have hfl : pyInt (pymod (u - v) 360 / 30) = ⌊pymod (u - v) 360 / 30⌋ :=
      pyInt_eq_floor hq0
    have hub : ⌊pymod (u - v) 360 / 30⌋ < 12 := by
      rw [Int.floor_lt]
      rw [div_lt_iff₀ (by norm_num)]
      push_cast
      linarith
    have hlb : 0 ≤ ⌊pymod (u - v) 360 / 30⌋ := Int.floor_nonneg.mpr hq0
    unfold get_house_number
    rw [hfl, if_neg (by omega)]
    exact ⟨rfl, by omega, by omega⟩
  obtain ⟨k1, k2, k3⟩ := key l a
  refine ⟨k1, k1 ▸ k2, k1 ▸ k3, ?_⟩
  obtain ⟨m1, -, -⟩ := key a a
  rw [m1, sub_self, pymod_self_of_lt le_rfl (by norm_num)]
  norm_num

/-- Claim C6: for a traditional planet (a key of the `dignities` table), the
essential-dignity score is a function of the sign of the longitude given by
the planet's table: +6 for an exaltation sign, +3 for a domicile sign,
+3 for an exile sign, +0 for a fall sign, summed, and 0 for a sign in none
of the lists. -/
theorem calculate_dignity_by_sign (p : String) (dg : DignityEntry)
    (h : dignities.lookup p = some dg) (L : ℚ) :
    calculate_dignity p L = dignityScoreSpec dg (get_sign L) := by
  unfold calculate_dignity dignityScoreSpec
  rw [h]
  dsimp only
  split_ifs <;> omega

/-- Witness for C6: the Sun at longitude 130 (sign `LEO`, an exaltation
sign of the Sun). -/
theorem calculate_dignity_by_sign_witness :
    dignities.lookup "SOL" = some
      ⟨["ESCORPIO", "GÉMINIS", "PEGASO"],
       ["LEO", "ARIES", "CAPRICORNIO", "VIRGO"],
       ["CÁNCER", "PISCIS", "LIBRA", "ACUARIO", "OFIUCO"],
       ["TAURO", "SAGITARIO"]⟩ ∧
    calculate_dignity "SOL" 130 = dignityScoreSpec
      ⟨["ESCORPIO", "GÉMINIS", "PEGASO"],
       ["LEO", "ARIES", "CAPRICORNIO", "VIRGO"],
       ["CÁNCER", "PISCIS", "LIBRA", "ACUARIO", "OFIUCO"],
       ["TAURO", "SAGITARIO"]⟩ (get_sign 130) :=
  ⟨rfl, calculate_dignity_by_sign "SOL" _ rfl 130⟩

/-- Claim C7: when no position is named `"ASC"`, the dignity table is empty
with grand total 0 and the houses table is empty (both functions are total
here: that path only performs the failed Ascendant search). -/
theorem no_asc_empty_tables (positions : List Position)
    (aspects_list : List Aspect) (b : Bool)
    (h : ∀ p ∈ positions, p.name ≠ "ASC") :
    calculate_dignity_table positions aspects_list = ⟨[], 0⟩ ∧
    calculate_houses_with_triplicities positions b = [] := by
  have hf : positions.find? (fun p => p.name == "ASC") = none := by
    rw [List.find?_eq_none]
    intro p hp
    simpa using h p hp
  constructor
  · unfold calculate_dignity_table
    rw [hf]
  · unfold calculate_houses_with_triplicities
    rw [hf]

/-- Witness for C7: a single-Sun position list. -/
theorem no_asc_empty_tables_witness :
    calculate_dignity_table [⟨"SOL", 10, "ARIES"⟩] [] = ⟨[], 0⟩ ∧
    calculate_houses_with_triplicities [⟨"SOL", 10, "ARIES"⟩] true = [] :=
  no_asc_empty_tables [⟨"SOL", 10, "ARIES"⟩] [] true (by decide)

/-- Claim C9: the houses/triplicities table does not depend on the `is_dry`
flag: calling the builder with `true` and with `false` yields the same
table (the parameter is dead in `get_triplicity_rulers_for_sign`). -/
theorem houses_ignore_is_dry (positions : List Position) :
    calculate_houses_with_triplicities positions true =
    calculate_houses_with_triplicities positions false := by
  unfold calculate_houses_with_triplicities
  cases positions.find? (fun p => p.name == "ASC") with
  | none => rfl
  | some asc_pos => rfl


theorem parseUnsignedFloat_nonneg (l : List Char) :
    0 ≤ parseFloat.parseUnsignedFloat l := by
  unfold parseFloat.parseUnsignedFloat
  split
  · positivity
  · positivity
  · norm_num

theorem pyIsDigitStr_neg_head (t : List Char) :
    pyIsDigitStr (removeFirstDot ('-' :: t)) = false := by
  have h1 : removeFirstDot ('-' :: t) = '-' :: removeFirstDot t := by
    rw [removeFirstDot, if_neg (by decide)]
  rw [h1]
  have h2 : ('-').isDigit = false := by decide
  simp [pyIsDigitStr, h2]

theorem parse_utc_offset_nonneg (s : String) : 0 ≤ parse_utc_offset s := by
  unfold parse_utc_offset
  split_ifs with h
  · unfold parseFloat
    split
    · next rest heq =>
      exfalso
      rw [heq, pyIsDigitStr_neg_head] at h
      exact Bool.false_ne_true h
    · exact parseUnsignedFloat_nonneg _
  · norm_num

theorem parse_utc_offset_neg_zero (s : String)
    (h : s.toList.head? = some '-') : parse_utc_offset s = 0 := by
  unfold parse_utc_offset
  cases hl : s.toList with
  | nil => rw [hl] at h; simp at h
  | cons c t =>
    rw [hl] at h
    simp only [List.head?_cons, Option.some.injEq] at h
    subst h
    rw [pyIsDigitStr_neg_head]
    simp

theorem loadRow_utc_offset {row : List String} {e : TimezoneTableEntry}
    (h : loadRow row = some e) :
    e.utc_offset = parse_utc_offset (row.getD 4 "") := by
  unfold loadRow at h
  split_ifs at h
  rw [Option.some.injEq] at h
  subst h
  rfl

theorem closest_zone_loop_mem (est : ℚ) :
    ∀ (l : List TimezoneTableEntry) (acc : Option (TimezoneTableEntry × ℚ))
      (e : TimezoneTableEntry),
      closest_zone_loop est acc l = some e →
      (∃ d, acc = some (e, d)) ∨ e ∈ l := by
  intro l
  induction l with
  | nil =>
    intro acc e h
    unfold closest_zone_loop at h
    cases acc with
    | none => simp at h
    | some p =>
      obtain ⟨b, d⟩ := p
      simp only [Option.map_some'] at h
      rw [Option.some.injEq] at h
      subst h
      exact Or.inl ⟨d, rfl⟩
  | cons z rest ih =>
    intro acc e h
    cases acc with
    | none =>
      rw [closest_zone_loop] at h
      rcases ih _ e h with ⟨d, hd⟩ | hmem
      · rw [Option.some.injEq, Prod.mk.injEq] at hd
        exact Or.inr (by rw [← hd.1]; exact List.mem_cons_self _ _)
      · exact Or.inr (List.mem_cons_of_mem _ hmem)
    | some p =>
      obtain ⟨best, md⟩ := p
      rw [closest_zone_loop] at h
      split_ifs at h
      · rcases ih _ e h with ⟨d, hd⟩ | hmem
        · rw [Option.some.injEq, Prod.mk.injEq] at hd
          exact Or.inr (by rw [← hd.1]; exact List.mem_cons_self _ _)
        · exact Or.inr (List.mem_cons_of_mem _ hmem)
      · rcases ih _ e h with ⟨d, hd⟩ | hmem
        · rw [Option.some.injEq, Prod.mk.injEq] at hd
          exact Or.inl ⟨md, by rw [hd.1]⟩
        · exact Or.inr (List.mem_cons_of_mem _ hmem)

/-- Claim C10: a UTC-offset CSV field with a leading `'-'` fails the digit
test (`replace('.', '', 1).isdigit()` rejects the minus sign), so the
loader stores `utc_offset = 0` for such a row; consequently every loaded
entry has a non-negative offset and the nearest-offset search can only ever
return an entry with `utc_offset ≥ 0`. -/
theorem negative_offset_rows_load_zero :
    (∀ s : String, s.toList.head? = some '-' → parse_utc_offset s = 0) ∧
    (∀ (row : List String) (e : TimezoneTableEntry), loadRow row = some e →
      (row.getD 4 "").toList.head? = some '-' → e.utc_offset = 0) ∧
    (∀ (row : List String) (e : TimezoneTableEntry), loadRow row = some e →
      0 ≤ e.utc_offset) ∧
    (∀ (rows : List (List String)) (est : ℚ) (e : TimezoneTableEntry),
      closest_zone est (preload_time_zone_df rows) = some e →
      0 ≤ e.utc_offset) := by
  refine ⟨parse_utc_offset_neg_zero, ?_, ?_, ?_⟩
  · intro row e h hneg
    rw [loadRow_utc_offset h]
    exact parse_utc_offset_neg_zero _ hneg
  · intro row e h
    rw [loadRow_utc_offset h]
    exact parse_utc_offset_nonneg _
  · intro rows est e h
    rcases closest_zone_loop_mem est _ none e h with ⟨d, hd⟩ | hmem
    · simp at hd
    · obtain ⟨row, -, hrow⟩ := List.mem_filterMap.mp hmem
      rw [loadRow_utc_offset hrow]
      exact parse_utc_offset_nonneg _

/-- Witness for C10: the row `["Europe/Madrid","ES","CET","0","-3600","1"]`
loads with `utc_offset = 0`, and the search over the one-row table returns
that entry. -/
theorem negative_offset_rows_load_zero_witness :
    parse_utc_offset "-3600" = 0 ∧
    (⟨"Europe/Madrid", "ES", "CET", 0, 0, 1⟩ : TimezoneTableEntry).utc_offset = 0 ∧
    (0:ℚ) ≤ (⟨"Europe/Madrid", "ES", "CET", 0, 0, 1⟩ : TimezoneTableEntry).utc_offset := by
  have hpre : preload_time_zone_df [["Europe/Madrid", "ES", "CET", "0", "-3600", "1"]] =
      [⟨"Europe/Madrid", "ES", "CET", 0, 0, 1⟩] := by decide
  refine ⟨negative_offset_rows_load_zero.1 "-3600" rfl,
    negative_offset_rows_load_zero.2.1
      ["Europe/Madrid", "ES", "CET", "0", "-3600", "1"] _ (by decide) rfl,
    negative_offset_rows_load_zero.2.2.2
      [["Europe/Madrid", "ES", "CET", "0", "-3600", "1"]] 0 _
      (by rw [hpre]; rfl)⟩


theorem signs_bounds : ∀ s ∈ signs, 0 ≤ s.2.1 ∧ s.2.1 ≤ 360 ∧ 0 < s.2.2 := by
  decide

/-- Claim C8: for a sign name present in the table, the degrees-in-sign value
(`(longitude - start) mod 360`, clamped into `[0, span)` by a further
modulo) is exactly what `calculate_sign_degrees` computes internally: it
lies in `[0, span)` and the returned pair is its floor together with the
floor of its fractional part times 60. -/
theorem sign_degrees_in_range (longitude : ℚ) (sign_name : String)
    (s : String × ℚ × ℚ)
    (h : signs.find? (fun t => t.1 == sign_name) = some s) :
    0 ≤ degreesInSignSpec longitude s.2.1 s.2.2 ∧
    degreesInSignSpec longitude s.2.1 s.2.2 < s.2.2 ∧
    calculate_sign_degrees longitude sign_name =
      (⌊degreesInSignSpec longitude s.2.1 s.2.2⌋,
       ⌊(degreesInSignSpec longitude s.2.1 s.2.2
          - (⌊degreesInSignSpec longitude s.2.1 s.2.2⌋ : ℚ)) * 60⌋) := by
  obtain ⟨hs0, hs1, hlen⟩ := signs_bounds s (List.mem_of_find?_eq_some h)
  have hL0 : (0:ℚ) ≤ pymod longitude 360 := pymod_nonneg _ (by norm_num)
  have hL1 : pymod longitude 360 < 360 := pymod_lt _ (by norm_num)
  have hd1 : (if (if 330 < s.2.1 ∧ pymod longitude 360 < s.2.1
        then pymod longitude 360 + (360 - s.2.1)
        else pymod longitude 360 - s.2.1) < 0
      then (if 330 < s.2.1 ∧ pymod longitude 360 < s.2.1
        then pymod longitude 360 + (360 - s.2.1)
        else pymod longitude 360 - s.2.1) + 360
      else (if 330 < s.2.1 ∧ pymod longitude 360 < s.2.1
        then pymod longitude 360 + (360 - s.2.1)
        else pymod longitude 360 - s.2.1))
      = pymod (pymod longitude 360 - s.2.1) 360 := by
    by_cases hw : 330 < s.2.1 ∧ pymod longitude 360 < s.2.1
    · have hnn : ¬ (pymod longitude 360 + (360 - s.2.1) < 0) := by
        push_neg
        linarith
      have hx : pymod (pymod longitude 360 - s.2.1) 360
          = (pymod longitude 360 - s.2.1) + 360 :=
        pymod_add_of_neg (by linarith) (by linarith [hw.2])
      rw [if_pos hw, if_neg hnn, hx]
      ring
    · rw [if_neg hw]
      by_cases hneg : pymod longitude 360 - s.2.1 < 0
      · have hx : pymod (pymod longitude 360 - s.2.1) 360
            = (pymod longitude 360 - s.2.1) + 360 :=
          pymod_add_of_neg (by linarith) hneg
        rw [if_pos hneg, hx]
      · have hx : pymod (pymod longitude 360 - s.2.1) 360
            = pymod longitude 360 - s.2.1 :=
          pymod_self_of_lt (by linarith) (by linarith)
        rw [if_neg hneg, hx]
  have hnorm : pymod (pymod longitude 360 - s.2.1) 360
      = pymod (longitude - s.2.1) 360 := by
    have harg : pymod longitude 360 - s.2.1
        = (longitude - s.2.1) + 360 * ((-⌊longitude / 360⌋ : ℤ) : ℚ) := by
      unfold pymod
      push_cast
      ring
    rw [harg, pymod_add_int_mul _ (by norm_num)]
  have hspec : degreesInSignSpec longitude s.2.1 s.2.2
      = pymod (pymod (pymod longitude 360 - s.2.1) 360) s.2.2 := by
    unfold degreesInSignSpec
    rw [hnorm]
  have hd2 : (if s.2.2 ≤ pymod (pymod longitude 360 - s.2.1) 360
      then pymod (pymod (pymod longitude 360 - s.2.1) 360) s.2.2
      else pymod (pymod longitude 360 - s.2.1) 360)
      = degreesInSignSpec longitude s.2.1 s.2.2 := by
    rw [hspec]
    by_cases hge : s.2.2 ≤ pymod (pymod longitude 360 - s.2.1) 360
    · rw [if_pos hge]
    · have hx : pymod (pymod (pymod longitude 360 - s.2.1) 360) s.2.2
          = pymod (pymod longitude 360 - s.2.1) 360 :=
        pymod_self_of_lt (pymod_nonneg _ (by norm_num)) (not_le.mp hge)
      rw [if_neg hge, hx]
  refine ⟨pymod_nonneg _ hlen, pymod_lt _ hlen, ?_⟩
  unfold calculate_sign_degrees
  rw [h]
  dsimp only
  rw [hd1, hd2]
  have hD0 : 0 ≤ degreesInSignSpec longitude s.2.1 s.2.2 := pymod_nonneg _ hlen
  rw [pyInt_eq_floor hD0]
  have hfr : 0 ≤ (degreesInSignSpec longitude s.2.1 s.2.2
      - (⌊degreesInSignSpec longitude s.2.1 s.2.2⌋ : ℚ)) * 60 := by
    have hfl := Int.floor_le (degreesInSignSpec longitude s.2.1 s.2.2)
    nlinarith
  rw [pyInt_eq_floor hfr]

/-- Witness for C8: longitude 100 in `CÁNCER` (start 90, span 30). -/
theorem sign_degrees_in_range_witness :
    0 ≤ degreesInSignSpec 100 90 30 ∧ degreesInSignSpec 100 90 30 < 30 ∧
    calculate_sign_degrees 100 "CÁNCER" =
      (⌊degreesInSignSpec 100 90 30⌋,
       ⌊(degreesInSignSpec 100 90 30 - (⌊degreesInSignSpec 100 90 30⌋ : ℚ)) * 60⌋) :=
  sign_degrees_in_range 100 "CÁNCER" ("CÁNCER", 90, 30) (by decide)

theorem near_two {θ a b : ℚ} (h1 : |θ - a| ≤ 2) (h2 : |θ - b| ≤ 2) :
    |a - b| ≤ 4 := by
  rw [abs_le] at *
  constructor <;> linarith

theorem aspect_excl_12 (θ : ℚ)
    (h1 : ∃ a ∈ ([0, 60, 120, 180] : List ℚ), |θ - a| ≤ 2)
    (h2 : ∃ b ∈ ([30, 90, 150] : List ℚ), |θ - b| ≤ 2) : False := by
  obtain ⟨a, ha, hna⟩ := h1
  obtain ⟨b, hb, hnb⟩ := h2
  have h4 := near_two hna hnb
  fin_cases ha <;> fin_cases hb <;> norm_num at h4

theorem aspect_excl_13 (θ : ℚ)
    (h1 : ∃ a ∈ ([0, 60, 120, 180] : List ℚ), |θ - a| ≤ 2)
    (h2 : ∃ b ∈ ([12, 24, 36, 48, 72, 84, 96, 108, 132, 144, 156, 168] : List ℚ),
      |θ - b| ≤ 2) : False := by
  obtain ⟨a, ha, hna⟩ := h1
  obtain ⟨b, hb, hnb⟩ := h2
  have h4 := near_two hna hnb
  fin_cases ha <;> fin_cases hb <;> norm_num at h4

theorem aspect_excl_14 (θ : ℚ)
    (h1 : ∃ a ∈ ([0, 60, 120, 180] : List ℚ), |θ - a| ≤ 2)
    (h2 : ∃ b ∈ ([6, 18, 42, 54, 66, 78, 102, 114, 126, 138, 162, 174] : List ℚ),
      |θ - b| ≤ 2) : False := by
  obtain ⟨a, ha, hna⟩ := h1
  obtain ⟨b, hb, hnb⟩ := h2
  have h4 := near_two hna hnb
  fin_cases ha <;> fin_cases hb <;> norm_num at h4

theorem aspect_excl_23 (θ : ℚ)
    (h1 : ∃ a ∈ ([30, 90, 150] : List ℚ), |θ - a| ≤ 2)
    (h2 : ∃ b ∈ ([12, 24, 36, 48, 72, 84, 96, 108, 132, 144, 156, 168] : List ℚ),
      |θ - b| ≤ 2) : False := by
  obtain ⟨a, ha, hna⟩ := h1
  obtain ⟨b, hb, hnb⟩ := h2
  have h4 := near_two hna hnb
  fin_cases ha <;> fin_cases hb <;> norm_num at h4

theorem aspect_excl_24 (θ : ℚ)
    (h1 : ∃ a ∈ ([30, 90, 150] : List ℚ), |θ - a| ≤ 2)
    (h2 : ∃ b ∈ ([6, 18, 42, 54, 66, 78, 102, 114, 126, 138, 162, 174] : List ℚ),
      |θ - b| ≤ 2) : False := by
  obtain ⟨a, ha, hna⟩ := h1
  obtain ⟨b, hb, hnb⟩ := h2
  have h4 := near_two hna hnb
  fin_cases ha <;> fin_cases hb <;> norm_num at h4

theorem aspect_excl_34 (θ : ℚ)
    (h1 : ∃ a ∈ ([12, 24, 36, 48, 72, 84, 96, 108, 132, 144, 156, 168] : List ℚ),
      |θ - a| ≤ 2)
    (h2 : ∃ b ∈ ([6, 18, 42, 54, 66, 78, 102, 114, 126, 138, 162, 174] : List ℚ),
      |θ - b| ≤ 2) : False := by
  obtain ⟨a, ha, hna⟩ := h1
  obtain ⟨b, hb, hnb⟩ := h2
  have h4 := near_two hna hnb
  fin_cases ha <;> fin_cases hb <;> norm_num at h4


theorem aspect_all_split (θ : ℚ)
    (h : ∃ a ∈ ([0, 6, 12, 18, 24, 30, 36, 42, 48, 54, 60, 66, 72, 78, 84, 90,
      96, 102, 108, 114, 120, 126, 132, 138, 144, 150, 156, 162, 168, 174, 180] :
      List ℚ), |θ - a| ≤ 2) :
    (∃ a ∈ ([0, 60, 120, 180] : List ℚ), |θ - a| ≤ 2) ∨
    (∃ a ∈ ([30, 90, 150] : List ℚ), |θ - a| ≤ 2) ∨
    (∃ a ∈ ([12, 24, 36, 48, 72, 84, 96, 108, 132, 144, 156, 168] : List ℚ),
      |θ - a| ≤ 2) ∨
    (∃ a ∈ ([6, 18, 42, 54, 66, 78, 102, 114, 126, 138, 162, 174] : List ℚ),
      |θ - a| ≤ 2) := by
  obtain ⟨a, ha, hn⟩ := h
  fin_cases ha
  · exact Or.inl ⟨_, by norm_num, hn⟩
  · exact Or.inr (Or.inr (Or.inr ⟨_, by norm_num, hn⟩))
  · exact Or.inr (Or.inr (Or.inl ⟨_, by norm_num, hn⟩))
  · exact Or.inr (Or.inr (Or.inr ⟨_, by norm_num, hn⟩))
  · exact Or.inr (Or.inr (Or.inl ⟨_, by norm_num, hn⟩))
  · exact Or.inr (Or.inl ⟨_, by norm_num, hn⟩)
  · exact Or.inr (Or.inr (Or.inl ⟨_, by norm_num, hn⟩))
  · exact Or.inr (Or.inr (Or.inr ⟨_, by norm_num, hn⟩))
  · exact Or.inr (Or.inr (Or.inl ⟨_, by norm_num, hn⟩))
  · exact Or.inr (Or.inr (Or.inr ⟨_, by norm_num, hn⟩))
  · exact Or.inl ⟨_, by norm_num, hn⟩
  · exact Or.inr (Or.inr (Or.inr ⟨_, by norm_num, hn⟩))
  · exact Or.inr (Or.inr (Or.inl ⟨_, by norm_num, hn⟩))
  · exact Or.inr (Or.inr (Or.inr ⟨_, by norm_num, hn⟩))
  · exact Or.inr (Or.inr (Or.inl ⟨_, by norm_num, hn⟩))
  · exact Or.inr (Or.inl ⟨_, by norm_num, hn⟩)
  · exact Or.inr (Or.inr (Or.inl ⟨_, by norm_num, hn⟩))
  · exact Or.inr (Or.inr (Or.inr ⟨_, by norm_num, hn⟩))
  · exact Or.inr (Or.inr (Or.inl ⟨_, by norm_num, hn⟩))
  · exact Or.inr (Or.inr (Or.inr ⟨_, by norm_num, hn⟩))
  · exact Or.inl ⟨_, by norm_num, hn⟩
  · exact Or.inr (Or.inr (Or.inr ⟨_, by norm_num, hn⟩))
  · exact Or.inr (Or.inr (Or.inl ⟨_, by norm_num, hn⟩))
  · exact Or.inr (Or.inr (Or.inr ⟨_, by norm_num, hn⟩))
  · exact Or.inr (Or.inr (Or.inl ⟨_, by norm_num, hn⟩))
  · exact Or.inr (Or.inl ⟨_, by norm_num, hn⟩)
  · exact Or.inr (Or.inr (Or.inl ⟨_, by norm_num, hn⟩))
  · exact Or.inr (Or.inr (Or.inr ⟨_, by norm_num, hn⟩))
  · exact Or.inr (Or.inr (Or.inl ⟨_, by norm_num, hn⟩))
  · exact Or.inr (Or.inr (Or.inr ⟨_, by norm_num, hn⟩))
  · exact Or.inl ⟨_, by norm_num, hn⟩

theorem aspect_incl_1 (θ : ℚ)
    (h : ∃ a ∈ ([0, 60, 120, 180] : List ℚ), |θ - a| ≤ 2) :
    ∃ a ∈ ([0, 6, 12, 18, 24, 30, 36, 42, 48, 54, 60, 66, 72, 78, 84, 90, 96,
      102, 108, 114, 120, 126, 132, 138, 144, 150, 156, 162, 168, 174, 180] :
      List ℚ), |θ - a| ≤ 2 := by
  obtain ⟨a, ha, hn⟩ := h
  fin_cases ha <;> exact ⟨_, by norm_num, hn⟩

theorem aspect_incl_2 (θ : ℚ)
    (h : ∃ a ∈ ([30, 90, 150] : List ℚ), |θ - a| ≤ 2) :
    ∃ a ∈ ([0, 6, 12, 18, 24, 30, 36, 42, 48, 54, 60, 66, 72, 78, 84, 90, 96,
      102, 108, 114, 120, 126, 132, 138, 144, 150, 156, 162, 168, 174, 180] :
      List ℚ), |θ - a| ≤ 2 := by
  obtain ⟨a, ha, hn⟩ := h
  fin_cases ha <;> exact ⟨_, by norm_num, hn⟩

theorem aspect_incl_3 (θ : ℚ)
    (h : ∃ a ∈ ([12, 24, 36, 48, 72, 84, 96, 108, 132, 144, 156, 168] : List ℚ),
      |θ - a| ≤ 2) :
    ∃ a ∈ ([0, 6, 12, 18, 24, 30, 36, 42, 48, 54, 60, 66, 72, 78, 84, 90, 96,
      102, 108, 114, 120, 126, 132, 138, 144, 150, 156, 162, 168, 174, 180] :
      List ℚ), |θ - a| ≤ 2 := by
  obtain ⟨a, ha, hn⟩ := h
  fin_cases ha <;> exact ⟨_, by norm_num, hn⟩

theorem aspect_incl_4 (θ : ℚ)
    (h : ∃ a ∈ ([6, 18, 42, 54, 66, 78, 102, 114, 126, 138, 162, 174] : List ℚ),
      |θ - a| ≤ 2) :
    ∃ a ∈ ([0, 6, 12, 18, 24, 30, 36, 42, 48, 54, 60, 66, 72, 78, 84, 90, 96,
      102, 108, 114, 120, 126, 132, 138, 144, 150, 156, 162, 168, 174, 180] :
      List ℚ), |θ - a| ≤ 2 := by
  obtain ⟨a, ha, hn⟩ := h
  fin_cases ha <;> exact ⟨_, by norm_num, hn⟩

theorem aspectsInner_sound (pos1 : Position) :
    ∀ (rest : List Position) (a : Aspect), a ∈ aspectsInner pos1 rest →
      a.1 = pos1.name ∧ a.2.2.1 ∈ traditional_planets := by
  intro rest
  induction rest with
  | nil =>
    intro a h
    simp [aspectsInner] at h
  | cons p2 r ih =>
    intro a h
    unfold aspectsInner at h
    split_ifs at h with hname
    · revert h
      split
      · intro h
        rcases List.mem_cons.mp h with rfl | hmem
        · exact ⟨rfl, hname⟩
        · exact ih a hmem
      · intro h
        exact ih a h
    · exact ih a h

theorem aspectsASC_sound (ascPos : Option Position) (pos1 : Position)
    (a : Aspect) (h : a ∈ aspectsASC ascPos pos1) :
    a.1 = pos1.name ∧ a.2.2.1 = "ASC" := by
  cases ascPos with
  | none =>
    delta aspectsASC at h
    dsimp only at h
    simp at h
  | some asc =>
    delta aspectsASC at h
    dsimp only at h
    cases hdt : determine_aspect_type (calculate_angle pos1.longitude asc.longitude) with
    | none =>
      rw [hdt] at h
      simp at h
    | some t =>
      rw [hdt] at h
      rcases List.mem_singleton.mp h with rfl
      exact ⟨rfl, rfl⟩

theorem aspectsOuter_sound (ascPos : Option Position) :
    ∀ (ps : List Position) (a : Aspect), a ∈ aspectsOuter ascPos ps →
      a.1 ∈ traditional_planets ∧
        (a.2.2.1 ∈ traditional_planets ∨ a.2.2.1 = "ASC") := by
  intro ps
  induction ps with
  | nil =>
    intro a h
    simp [aspectsOuter] at h
  | cons p1 r ih =>
    intro a h
    unfold aspectsOuter at h
    split_ifs at h with hname
    · rcases List.mem_append.mp h with h2 | h3
      · rcases List.mem_append.mp h2 with h4 | h5
        · obtain ⟨e1, e2⟩ := aspectsInner_sound p1 r a h4
          exact ⟨by rw [e1]; exact hname, Or.inl e2⟩
        · obtain ⟨e1, e2⟩ := aspectsASC_sound ascPos p1 a h5
          exact ⟨by rw [e1]; exact hname, Or.inr e2⟩
      · exact ih a h3
    · exact ih a h

/-- Claim C5: every recorded aspect pairs a traditional planet with either a
later traditional planet or the Ascendant; the angular separation is
symmetric and always in `[0, 180]`; and the classification is: within 2° of
{0, 60, 120, 180} → `Armónico Relevante`, of {30, 90, 150} →
`Inarmónico Relevante`, of the twelve 12°-multiples left over → `Armónico`,
of the twelve odd 6°-multiples → `Inarmónico`, otherwise no aspect. -/
theorem aspect_detector_props :
    (∀ positions : List Position,
      (calculate_positions_aspects positions).all (fun a =>
        decide (a.1 ∈ traditional_planets ∧
          (a.2.2.1 ∈ traditional_planets ∨ a.2.2.1 = "ASC"))) = true) ∧
    (∀ x y : ℚ, calculate_angle x y = calculate_angle y x ∧
        0 ≤ calculate_angle x y ∧ calculate_angle x y ≤ 180) ∧
    (∀ θ : ℚ,
      (determine_aspect_type θ = some "Armónico Relevante" ↔
        ∃ a ∈ ([0, 60, 120, 180] : List ℚ), |θ - a| ≤ 2) ∧
      (determine_aspect_type θ = some "Inarmónico Relevante" ↔
        ∃ a ∈ ([30, 90, 150] : List ℚ), |θ - a| ≤ 2) ∧
      (determine_aspect_type θ = some "Armónico" ↔
        ∃ a ∈ ([12, 24, 36, 48, 72, 84, 96, 108, 132, 144, 156, 168] : List ℚ),
          |θ - a| ≤ 2) ∧
      (determine_aspect_type θ = some "Inarmónico" ↔
        ∃ a ∈ ([6, 18, 42, 54, 66, 78, 102, 114, 126, 138, 162, 174] : List ℚ),
          |θ - a| ≤ 2) ∧
      (determine_aspect_type θ = none ↔
        ¬ ∃ a ∈ ([0, 6, 12, 18, 24, 30, 36, 42, 48, 54, 60, 66, 72, 78, 84, 90,
          96, 102, 108, 114, 120, 126, 132, 138, 144, 150, 156, 162, 168, 174,
          180] : List ℚ), |θ - a| ≤ 2)) := by
  refine ⟨?_, ?_, ?_⟩
  · intro positions
    rw [List.all_eq_true]
    intro a ha
    exact decide_eq_true (aspectsOuter_sound _ positions a ha)
  · intro x y
    refine ⟨?_, ?_⟩
    · unfold calculate_angle
      rw [abs_sub_comm]
    · have h0 := pymod_nonneg |x - y| (show (0:ℚ) < 360 by norm_num)
      have h1 := pymod_lt |x - y| (show (0:ℚ) < 360 by norm_num)
      unfold calculate_angle
      split_ifs with h <;> constructor <;> linarith
  · intro θ
    have b1 : (|θ| ≤ 2 ∨ |θ - 60| ≤ 2 ∨ |θ - 120| ≤ 2 ∨ |θ - 180| ≤ 2) ↔
        ∃ a ∈ ([0, 60, 120, 180] : List ℚ), |θ - a| ≤ 2 := by
      simp [sub_zero]
    have b2 : (|θ - 30| ≤ 2 ∨ |θ - 90| ≤ 2 ∨ |θ - 150| ≤ 2) ↔
        ∃ a ∈ ([30, 90, 150] : List ℚ), |θ - a| ≤ 2 := by
      simp
    have b3 : (([12, 24, 36, 48, 72, 84, 96, 108, 132, 144, 156, 168] : List ℚ).any
        (fun a => decide (|θ - a| ≤ 2)) = true) ↔
        ∃ a ∈ ([12, 24, 36, 48, 72, 84, 96, 108, 132, 144, 156, 168] : List ℚ),
          |θ - a| ≤ 2 := by
      simp [List.any_eq_true]
    have b4 : (([6, 18, 42, 54, 66, 78, 102, 114, 126, 138, 162, 174] : List ℚ).any
        (fun a => decide (|θ - a| ≤ 2)) = true) ↔
        ∃ a ∈ ([6, 18, 42, 54, 66, 78, 102, 114, 126, 138, 162, 174] : List ℚ),
          |θ - a| ≤ 2 := by
      simp [List.any_eq_true]
    by_cases h1 : |θ| ≤ 2 ∨ |θ - 60| ≤ 2 ∨ |θ - 120| ≤ 2 ∨ |θ - 180| ≤ 2
    · have hv : determine_aspect_type θ = some "Armónico Relevante" := by
        unfold determine_aspect_type
        rw [if_pos h1]
      rw [hv]
      exact ⟨iff_of_true rfl (b1.mp h1),
        iff_of_false (by simp) (fun hex => aspect_excl_12 θ (b1.mp h1) hex),
        iff_of_false (by simp) (fun hex => aspect_excl_13 θ (b1.mp h1) hex),
        iff_of_false (by simp) (fun hex => aspect_excl_14 θ (b1.mp h1) hex),
        iff_of_false (by simp) (fun hno => hno (aspect_incl_1 θ (b1.mp h1)))⟩
    · by_cases h2 : |θ - 30| ≤ 2 ∨ |θ - 90| ≤ 2 ∨ |θ - 150| ≤ 2
      · have hv : determine_aspect_type θ = some "Inarmónico Relevante" := by
          unfold determine_aspect_type
          rw [if_neg h1, if_pos h2]
        rw [hv]
        exact ⟨iff_of_false (by simp) (fun hex => h1 (b1.mpr hex)),
          iff_of_true rfl (b2.mp h2),
          iff_of_false (by simp) (fun hex => aspect_excl_23 θ (b2.mp h2) hex),
          iff_of_false (by simp) (fun hex => aspect_excl_24 θ (b2.mp h2) hex),
          iff_of_false (by simp) (fun hno => hno (aspect_incl_2 θ (b2.mp h2)))⟩
      · by_cases h3 : ([12, 24, 36, 48, 72, 84, 96, 108, 132, 144, 156, 168] :
            List ℚ).any (fun a => decide (|θ - a| ≤ 2)) = true
        · have hv : determine_aspect_type θ = some "Armónico" := by
            unfold determine_aspect_type
            rw [if_neg h1, if_neg h2, if_pos h3]
          rw [hv]
          exact ⟨iff_of_false (by simp) (fun hex => h1 (b1.mpr hex)),
            iff_of_false (by simp) (fun hex => h2 (b2.mpr hex)),
            iff_of_true rfl (b3.mp h3),
            iff_of_false (by simp) (fun hex => aspect_excl_34 θ (b3.mp h3) hex),
            iff_of_false (by simp) (fun hno => hno (aspect_incl_3 θ (b3.mp h3)))⟩
        · by_cases h4 : ([6, 18, 42, 54, 66, 78, 102, 114, 126, 138, 162, 174] :
              List ℚ).any (fun a => decide (|θ - a| ≤ 2)) = true
          · have hv : determine_aspect_type θ = some "Inarmónico" := by
              unfold determine_aspect_type
              rw [if_neg h1, if_neg h2, if_neg h3, if_pos h4]
            rw [hv]
            exact ⟨iff_of_false (by simp) (fun hex => h1 (b1.mpr hex)),
              iff_of_false (by simp) (fun hex => h2 (b2.mpr hex)),
              iff_of_false (by simp) (fun hex => h3 (b3.mpr hex)),
              iff_of_true rfl (b4.mp h4),
              iff_of_false (by simp) (fun hno => hno (aspect_incl_4 θ (b4.mp h4)))⟩
          · have hv : determine_aspect_type θ = none := by
              unfold determine_aspect_type
              rw [if_neg h1, if_neg h2, if_neg h3, if_neg h4]
            rw [hv]
            refine ⟨iff_of_false (by simp) (fun hex => h1 (b1.mpr hex)),
              iff_of_false (by simp) (fun hex => h2 (b2.mpr hex)),
              iff_of_false (by simp) (fun hex => h3 (b3.mpr hex)),
              iff_of_false (by simp) (fun hex => h4 (b4.mpr hex)),
              iff_of_true rfl ?_⟩
            intro hall
            rcases aspect_all_split θ hall with hA | hB | hC | hD
            · exact h1 (b1.mpr hA)
            · exact h2 (b2.mpr hB)
            · exact h3 (b3.mpr hC)
            · exact h4 (b4.mpr hD)


/-- Counterexample to C1 as stated: on a parse failure `convertir_a_utc`
raises to its caller even when both an offset and a longitude are
available, because the `except` handler starts by re-running the very same
`datetime.strptime` call, which raises again. -/
theorem convertir_a_utc_raises_on_parse_failure :
    parseFechaHora "bad" "12:00" = none ∧
    convertir_a_utc "bad" "12:00" ⟨some 1, some 0⟩ = Except.error () := by
  constructor
  · rfl
  · rfl

/-- Claim C1 (amended): `convertir_a_utc` parses `"YYYY-MM-DD HH:MM"` as
local civil time and subtracts the fixed offset `tz.offset` to obtain UTC;
when reading/attaching the offset fails (missing key or out-of-range
offset) it falls back to the longitude-derived offset `round(lon / 15)`
when a `"lon"` key is present, and otherwise assumes the input was already
UTC; but on a parse failure the handler re-parses the same string and the
exception propagates to the caller. -/
theorem convertir_a_utc_behavior (fecha hora : String) (tz : TimezoneInfo)
    (dt : LocalDT) (off lonv : ℚ) :
    (parseFechaHora fecha hora = some dt → tz.offset = some off →
      tzOffsetOk off →
      convertir_a_utc fecha hora tz =
        Except.ok ((toMinutes dt : ℚ) - off * 60)) ∧
    (parseFechaHora fecha hora = some dt → tz.offset = some off →
      ¬ tzOffsetOk off →
      convertir_a_utc fecha hora tz = convertir_a_utc_fallback dt tz) ∧
    (parseFechaHora fecha hora = some dt → tz.offset = none →
      tz.lon = some lonv → tzOffsetOk ((pyRound (lonv / 15) : ℤ) : ℚ) →
      convertir_a_utc fecha hora tz =
        Except.ok ((toMinutes dt : ℚ) - ((pyRound (lonv / 15) : ℤ) : ℚ) * 60)) ∧
    (parseFechaHora fecha hora = some dt → tz.offset = none → tz.lon = none →
      convertir_a_utc fecha hora tz = Except.ok ((toMinutes dt : ℚ))) ∧
    (parseFechaHora fecha hora = none →
      convertir_a_utc fecha hora tz = Except.error ()) := by
  refine ⟨?_, ?_, ?_, ?_, ?_⟩
  · intro hp ho hok
    unfold convertir_a_utc
    rw [hp, ho]
    dsimp only
    rw [if_pos hok]
  · intro hp ho hnok
    unfold convertir_a_utc
    rw [hp, ho]
    dsimp only
    rw [if_neg hnok]
  · intro hp ho hl hok
    unfold convertir_a_utc
    rw [hp, ho]
    dsimp only
    unfold convertir_a_utc_fallback
    rw [hl]
    dsimp only
    rw [if_pos hok]
  · intro hp ho hl
    unfold convertir_a_utc
    rw [hp, ho]
    dsimp only
    unfold convertir_a_utc_fallback
    rw [hl]
  · intro hp
    unfold convertir_a_utc
    rw [hp]

/-- Witness for the amended C1: a valid offset conversion, the assume-UTC
fallback, and a propagated parse failure, all at concrete inputs. -/
theorem convertir_a_utc_behavior_witness :
    convertir_a_utc "2000-06-15" "12:00" ⟨some 2, none⟩ =
      Except.ok ((toMinutes ⟨2000, 6, 15, 12, 0⟩ : ℚ) - 2 * 60) ∧
    convertir_a_utc "2000-06-15" "12:00" ⟨none, none⟩ =
      Except.ok ((toMinutes ⟨2000, 6, 15, 12, 0⟩ : ℚ)) ∧
    convertir_a_utc "xx" "12:00" ⟨some 2, none⟩ = Except.error () :=
  ⟨(convertir_a_utc_behavior "2000-06-15" "12:00" ⟨some 2, none⟩
      ⟨2000, 6, 15, 12, 0⟩ 2 0).1 (by decide) rfl (by decide),
   (convertir_a_utc_behavior "2000-06-15" "12:00" ⟨none, none⟩
      ⟨2000, 6, 15, 12, 0⟩ 2 0).2.2.2.1 (by decide) rfl rfl,
   (convertir_a_utc_behavior "xx" "12:00" ⟨some 2, none⟩
      ⟨2000, 6, 15, 12, 0⟩ 2 0).2.2.2.2 (by decide)⟩

end Triplicidades
